import Mathlib

/-!
Verification of the canal interconnect lowering engine (src/canal/circuit.py)
against its natural-language specification.

The Python source is shallowly embedded: the cyclone graph objects consumed by
circuit.py (nodes, switch boxes, tiles) become explicit Lean structures, the
compiler classes (CB, SB, TileCircuit) become pure construction functions
returning Except values (a Python assertion failure or raised exception is an
error value), and the configuration-address arithmetic is done on Nat.
-/

namespace Canal

/-! ## Graph model (cyclone nodes as consumed by circuit.py)

cyclone.py is not part of the verified source tree; the node structures below
record exactly the attributes circuit.py reads: the node kind (with the IN/OUT
tag of switch-box nodes), str(node), node.name, node.width and the (x, y)
coordinate.  Edges are a global ordered list; a node's get_conn_in() is the
ordered list of sources of the edges into it, and iterating a node yields the
ordered list of targets of the edges out of it. -/

inductive SwitchBoxDir
  | SB_IN
  | SB_OUT
deriving DecidableEq, Repr, Inhabited

inductive NodeKind
  | switchBoxNode (dir : SwitchBoxDir)
  | portNode
  | registerNode
  | registerMuxNode
deriving DecidableEq, Repr, Inhabited

structure GNode where
  kind : NodeKind
  nodeStr : String
  name : String
  width : Nat
  x : Int
  y : Int
deriving DecidableEq, Repr, Inhabited

structure Graph where
  edges : List (GNode × GNode)
deriving DecidableEq

/-- node.get_conn_in(): ordered incoming sources of a node. -/
def Graph.connIn (g : Graph) (n : GNode) : List GNode :=
  (g.edges.filter (fun e => e.2 = n)).map Prod.fst

/-- iter(node) / len(node): ordered outgoing targets of a node. -/
def Graph.connOut (g : Graph) (n : GNode) : List GNode :=
  (g.edges.filter (fun e => e.1 = n)).map Prod.snd

/-! ## Name mangling (circuit.py lines 13-24) -/

/-- One pass of Python str.replace("__", "_"): left-to-right, non-overlapping. -/
def collapseUnderscores : List Char → List Char
  | '_' :: '_' :: rest => '_' :: collapseUnderscores rest
  | c :: rest => c :: collapseUnderscores rest
  | [] => []

/-- create_name: replace each of the characters space, parens and comma by an
underscore, collapse double underscores once, and strip one trailing
underscore.  (Python indexes name[-1] and so faults on an empty string; names
are never empty in practice and the embedding returns the empty string.) -/
def create_name (s : String) : String :=
  let cs := s.data.map fun c =>
    if c = ' ' ∨ c = '(' ∨ c = ')' ∨ c = ',' then '_' else c
  let cs := collapseUnderscores cs
  let cs := if cs.getLast? = some '_' then cs.dropLast else cs
  String.mk cs

/-- get_mux_sel_name(node) = create_name(str(node)) + "_sel". -/
def get_mux_sel_name (node : GNode) : String :=
  create_name node.nodeStr ++ "_sel"

/-- Python substring test, specialised: does the character list contain "MUX"? -/
def containsMUXChars : List Char → Bool
  | 'M' :: 'U' :: 'X' :: _ => true
  | _ :: rest => containsMUXChars rest
  | [] => false

def containsMUX (s : String) : Bool := containsMUXChars s.data

/-! ## Lexicographic string order (Python str comparison, used by list.sort())

Python compares strings lexicographically by code point.  The comparator is
spelled out over character lists so that concrete sorts reduce inside the
kernel. -/

def lexLe : List Char → List Char → Bool
  | [], _ => true
  | _ :: _, [] => false
  | a :: as, b :: bs =>
    if a.toNat < b.toNat then true
    else if b.toNat < a.toNat then false
    else lexLe as bs

def strLeB (a b : String) : Bool := lexLe a.data b.data

def strLe (a b : String) : Prop := strLeB a b = true

instance : DecidableRel strLe := fun a b => instDecidableEqBool (strLeB a b) true

theorem lexLe_total : ∀ a b : List Char, lexLe a b = true ∨ lexLe b a = true
  | [], _ => Or.inl rfl
  | _ :: _, [] => Or.inr rfl
  | a :: as, b :: bs => by
    rcases Nat.lt_trichotomy a.toNat b.toNat with h | h | h
    · exact Or.inl (by simp [lexLe, h])
    · have hn : ¬ a.toNat < b.toNat := by omega
      have hn2 : ¬ b.toNat < a.toNat := by omega
      rcases lexLe_total as bs with ih | ih
      · exact Or.inl (by simp [lexLe, hn, hn2, ih])
      · exact Or.inr (by simp [lexLe, hn, hn2, ih])
    · exact Or.inr (by simp [lexLe, h])

theorem lexLe_trans : ∀ a b c : List Char,
    lexLe a b = true → lexLe b c = true → lexLe a c = true
  | [], _, _ => fun _ _ => rfl
  | a :: as, [], _ => fun h _ => by simp [lexLe] at h
  | _ :: _, _ :: _, [] => fun _ h => by simp [lexLe] at h
  | a :: as, b :: bs, c :: cs => fun h1 h2 => by
    simp only [lexLe] at h1 h2 ⊢
    split at h1
    · next hab =>
      rcases Nat.lt_trichotomy b.toNat c.toNat with h | h | h
      · have : a.toNat < c.toNat := by omega
        simp [this]
      · have : a.toNat < c.toNat := by omega
        simp [this]
      · simp [h, Nat.lt_asymm h] at h2
    · next hab =>
      split at h1
      · exact absurd h1 (by simp)
      · next hba =>
        split at h2
        · next hbc =>
          have : a.toNat < c.toNat := by omega
          simp [this]
        · split at h2
          · exact absurd h2 (by simp)
          · next hcb =>
            have hac : ¬ a.toNat < c.toNat := by omega
            have hca : ¬ c.toNat < a.toNat := by omega
            simp only [hac, if_false, hca]
            exact lexLe_trans as bs cs h1 h2

theorem lexLe_antisymm : ∀ a b : List Char,
    lexLe a b = true → lexLe b a = true → a = b
  | [], [] => fun _ _ => rfl
  | [], _ :: _ => fun _ h => by simp [lexLe] at h
  | _ :: _, [] => fun h _ => by simp [lexLe] at h
  | a :: as, b :: bs => fun h1 h2 => by
    simp only [lexLe] at h1 h2
    rcases Nat.lt_trichotomy a.toNat b.toNat with h | h | h
    · simp [h, Nat.lt_asymm h] at h2
    · have hn : ¬ a.toNat < b.toNat := by omega
      have hn2 : ¬ b.toNat < a.toNat := by omega
      simp only [hn, if_false, hn2] at h1 h2
      have htn : a.toNat = b.toNat := by omega
      have hab : a = b := Char.eq_of_val_eq (UInt32.toNat.inj htn)
      rw [hab, lexLe_antisymm as bs h1 h2]
    · simp [h, Nat.lt_asymm h] at h1

instance : IsTotal String strLe :=
  ⟨fun a b => lexLe_total a.data b.data⟩

instance : IsTrans String strLe :=
  ⟨fun a b c => lexLe_trans a.data b.data c.data⟩

instance : IsAntisymm String strLe :=
  ⟨fun a b h1 h2 => by
    have := lexLe_antisymm a.data b.data h1 h2
    cases a; cases b; exact congrArg String.mk this⟩

/-! ## Ceil-log2 (select width of a selector)

Structural (fuel-based) so that concrete values reduce inside the kernel;
proved equal to Mathlib's Nat.clog 2. -/

def clog2Fuel : Nat → Nat → Nat
  | 0, _ => 0
  | fuel + 1, n => if n ≤ 1 then 0 else clog2Fuel fuel ((n + 1) / 2) + 1

def clog2 (n : Nat) : Nat := clog2Fuel n n

theorem clog2Fuel_eq_clog (fuel n : Nat) (h : n ≤ fuel) :
    clog2Fuel fuel n = Nat.clog 2 n := by
  induction fuel generalizing n with
  | zero =>
    interval_cases n
    simp [clog2Fuel, Nat.clog]
  | succ fuel ih =>
    by_cases h1 : n ≤ 1
    · interval_cases n <;> simp [clog2Fuel, Nat.clog]
    · have h2 : 2 ≤ n := by omega
      rw [clog2Fuel, if_neg h1, Nat.clog_of_two_le (by norm_num) h2]
      have : (n + 2 - 1) / 2 = (n + 1) / 2 := by omega
      rw [this, ih _ (by omega)]

theorem clog2_eq_clog (n : Nat) : clog2 n = Nat.clog 2 n :=
  clog2Fuel_eq_clog n n le_rfl

/-! ## Multiplexer elements (zelus MuxA, external primitive library)

The Mux generator itself lives outside this repository; the spec fixes its
contract: a selector of a given height and width whose select input has
ceil(log2(height)) bits.  Only those three numbers are consumed by
circuit.py. -/

structure Mux where
  height : Nat
  width : Nat
deriving DecidableEq, Repr, Inhabited

/-- Modelled from the spec: the select width of the external Mux primitive is
ceil(log2(height)) (spec 4.1 and 8: a register of width ceil(log2(k)) for a
height-k selector).  Both Python spellings mux.sel_size and mux.sel_bits denote
this quantity. -/
def Mux.sel_size (m : Mux) : Nat := clog2 m.height

/-- create_mux (circuit.py lines 27-39): the element for a node has height
equal to the incoming-edge count and the node width; the instance name is
prefixed MUX_ when the height exceeds one and the mangled node name does not
already contain MUX, and prefixed WIRE_ otherwise. -/
def create_mux (g : Graph) (node : GNode) : Mux × String :=
  let conn_in := g.connIn node
  let height := conn_in.length
  let node_name := create_name node.nodeStr
  let name :=
    if height > 1 then
      if containsMUX node_name = false then "MUX_" ++ node_name else node_name
    else
      "WIRE_" ++ node_name
  ({ height := height, width := node.width }, name)

/-! ## Configuration allocator (InterconnectConfigurable, lines 42-98) -/

/-- add_config: the registers dict keeps insertion order; registering a name
twice is an assertion fault. -/
def add_config (regs : List (String × Nat)) (name : String) (width : Nat) :
    Except String (List (String × Nat)) :=
  if (regs.map Prod.fst).contains name then
    .error "assert name not in self.registers"
  else
    .ok (regs ++ [(name, width)])

/-- The sorted key list computed by _setup_config and __find_reg_index
(config_names.sort() is an ascending lexicographic sort). -/
def sorted_config_names (regs : List (String × Nat)) : List String :=
  (regs.map Prod.fst).insertionSort strLe

/-- The address map produced by _setup_config: the i-th name in sorted order
receives address i (reg.params.addr.set_value(idx)). -/
def config_addr_assignment (regs : List (String × Nat)) : List (String × Nat) :=
  (sorted_config_names regs).enum.map fun p => (p.2, p.1)


/-! ## Connection-Box compiler (class CB, circuit.py lines 107-141)

The compiled unit is recorded as its port list, its configuration-register
dict and the structural wires between its own ports and the element's ports
(the shared config-bus wiring of _setup_config is not re-recorded: it carries
no information beyond the register list).  Constructing a CB from anything but
a PortNode raises ValueError. -/

structure CBCircuit where
  name : String
  node : GNode
  mux : Mux
  mux_name : String
  ports : List String
  registers : List (String × Nat)
  wires : List (String × String)
deriving DecidableEq, Repr, Inhabited

def CB_create (g : Graph) (node : GNode)
    (config_addr_width config_data_width : Nat) : Except String CBCircuit :=
  if node.kind ≠ NodeKind.portNode then
    .error "ValueError: not isinstance(node, PortNode)"
  else
    if (create_mux g node).1.height > 1 then
      match add_config [] (get_mux_sel_name node) (create_mux g node).1.sel_size with
      | .error e => .error e
      | .ok regs =>
        .ok { name := create_name node.nodeStr, node := node,
              mux := (create_mux g node).1,
              mux_name := (create_mux g node).2,
              ports := ["clk", "reset", "read_config_data", "I", "O", "config"],
              registers := regs,
              wires := [("I", "mux.I"), ("mux.O", "O"),
                        (get_mux_sel_name node ++ ".O", "mux.S")] }
    else
      .ok { name := create_name node.nodeStr, node := node,
            mux := (create_mux g node).1,
            mux_name := (create_mux g node).2,
            ports := ["I", "O"],
            registers := [],
            wires := [("I", "mux.I"), ("mux.O", "O")] }

/-! ## Switch-Box compiler (class SB, circuit.py lines 144-333)

The construction is split into the same passes as the Python constructor; each
Python assert or KeyError/ValueError becomes an error value.  The wiring
passes only make connections between already-recorded elements, so they are
embedded as pure validation passes (their asserts and lookups), keeping the
element dictionaries as the compiled artefact. -/

structure SwitchBoxDesc where
  id : Nat
  num_track : Nat
  width : Nat
  x : Int
  y : Int
  sbNodes : List GNode
  reg_muxs : List (String × GNode)
  registers : List (String × GNode)
deriving DecidableEq, Repr, Inhabited

structure SBCircuit where
  name : String
  switchbox : SwitchBoxDesc
  sb_muxs : List (String × GNode × (Mux × String))
  reg_muxs : List (String × GNode × Mux)
  regs : List (String × GNode)
  ports : List String
  registers : List (String × Nat)
  mux_name_to_node : List (String × GNode)
deriving DecidableEq, Repr, Inhabited

/-- node.io for the embedded node (only switch-box nodes carry the tag). -/
def GNode.io (n : GNode) : Option SwitchBoxDir :=
  match n.kind with
  | .switchBoxNode dir => some dir
  | _ => none

/-- Iterate an effectful check over a list, stopping at the first fault. -/
def forEachE (l : List α) (f : α → Except String Unit) : Except String Unit :=
  match l with
  | [] => .ok ()
  | a :: rest =>
    match f a with
    | .error e => .error e
    | .ok _ => forEachE rest f

/-- SB.__create_reg_mux validation (lines 236-259): a register mux must have
exactly two incoming connections, one RegisterNode and one OUT switch-box
node; the OUT switch node is returned (it keys the reg_muxs dict). -/
def SB_check_reg_mux (g : Graph) (reg_mux : GNode) : Except String GNode :=
  match g.connIn reg_mux with
  | [node1, node2] =>
    if node1.kind = NodeKind.registerNode then
      match node2.kind with
      | .switchBoxNode dir =>
        if dir = .SB_OUT then .ok node2
        else .error "assert node2.io == SwitchBoxIO.SB_OUT"
      | _ => .error "assert isinstance(node2, SwitchBoxNode)"
    else if node2.kind = NodeKind.registerNode then
      match node1.kind with
      | .switchBoxNode dir =>
        if dir = .SB_OUT then .ok node1
        else .error "assert node1.io == SwitchBoxIO.SB_OUT"
      | _ => .error "assert isinstance(node1, SwitchBoxNode)"
    else .error "ValueError: expect a sb connected to the reg_mux"
  | _ => .error "assert len(conn_ins) == 2"

def SB_build_reg_muxs (g : Graph) :
    List (String × GNode) → Except String (List (String × GNode × Mux))
  | [] => .ok []
  | (_, rm) :: rest =>
    match SB_check_reg_mux g rm with
    | .error e => .error e
    | .ok sb_node =>
      match SB_build_reg_muxs g rest with
      | .error e => .error e
      | .ok tl => .ok ((sb_node.nodeStr, rm, (create_mux g rm).1) :: tl)

/-- Port-lifting pass of SB.__init__ (lines 166-184).  Line 234 stored
create_mux's (mux, name) pair un-unpacked, contradicting sb_muxs's declared
value type Tuple[SwitchBoxNode, Mux] (line 152), so the loop's (sb, mux)
unpacking binds mux to that pair and both branches read ports off a tuple
(mux.ports.I at line 171, mux.ports.O at line 175): the first entry faults
unconditionally, before the reg_muxs checks of lines 179-183 are reached. -/
def SB_lift_ports_pass :
    List (String × GNode × (Mux × String)) → Except String Unit
  | [] => .ok ()
  | _ :: _ => .error "AttributeError: tuple object has no attribute ports" 

/-- SB.__connect_sbs (lines 280-294): for every switch node fed by an IN node
the asserts of lines 287-288 run, and then line 289 reads mux.ports.O off the
tuple-valued sb_muxs entry, faulting before the index and lookup of lines
290-293. -/
def SB_connect_sbs_node (g : Graph) (sb node : GNode) : Except String Unit :=
  match node.kind with
  | .switchBoxNode dir =>
    if dir = .SB_OUT then
      if node.x = sb.x ∧ node.y = sb.y then
        .error "AttributeError: tuple object has no attribute ports"
      else .error "assert node.x == sb.x and node.y == sb.y"
    else .error "assert node.io == SwitchBoxIO.SB_OUT"
  | _ => .ok ()

def SB_connect_sbs_check (g : Graph)
    (sb_muxs : List (String × GNode × (Mux × String))) :
    Except String Unit :=
  forEachE sb_muxs fun p =>
    if p.2.1.io = some .SB_IN then
      forEachE (g.connOut p.2.1) (SB_connect_sbs_node g p.2.1)
    else .ok ()

/-- SB.__connect_sb_out (lines 296-313): the asserts and lookups of lines
302-304 and 307-311 run, and then the wire call of line 305 (respectively
313) reads mux.ports.O off the tuple-valued sb_muxs entry and faults. -/
def SB_connect_sb_out_node (g : Graph) (regs : List (String × GNode))
    (reg_muxs : List (String × GNode × Mux)) (sb node : GNode) :
    Except String Unit :=
  match node.kind with
  | .registerNode =>
    match List.lookup node.name regs with
    | some reg_node =>
      if (g.connIn reg_node).length = 1 then
        .error "AttributeError: tuple object has no attribute ports"
      else .error "assert len(reg_node.get_conn_in()) == 1"
    | none => .error "KeyError: self.regs"
  | .registerMuxNode =>
    if (g.connIn node).length = 2 then
      if sb ∈ g.connIn node then
        match List.lookup sb.nodeStr reg_muxs with
        | some nm =>
          if nm.1 = node then
            .error "AttributeError: tuple object has no attribute ports"
          else .error "assert n == node"
        | none => .error "KeyError: self.reg_muxs"
      else .error "ValueError: sb not in node.get_conn_in()"
    else .error "assert len(node.get_conn_in()) == 2"
  | _ => .ok ()

def SB_connect_sb_out_check (g : Graph)
    (sb_muxs : List (String × GNode × (Mux × String)))
    (reg_muxs : List (String × GNode × Mux))
    (regs : List (String × GNode)) : Except String Unit :=
  forEachE sb_muxs fun p =>
    if p.2.1.io = some .SB_OUT then
      forEachE (g.connOut p.2.1) (SB_connect_sb_out_node g regs reg_muxs p.2.1)
    else .ok ()

/-- SB.__connect_regs (lines 315-333): wire 3 of the bypass topology.  A
pipeline register has exactly one outgoing connection (its register mux); the
register mux has exactly two incoming connections, and removing the register
from them leaves the OUT switch node, which must also feed the register. -/
def SB_connect_regs_one (g : Graph) (reg_muxs : List (String × GNode × Mux))
    (node : GNode) : Except String Unit :=
  match g.connOut node with
  | [reg_mux_node] =>
    let conn := g.connIn reg_mux_node
    if conn.length = 2 then
      if node ∈ conn then
        match conn.erase node with
        | [sb_node] =>
          if node ∈ g.connOut sb_node then
            match List.lookup sb_node.nodeStr reg_muxs with
            | some nm =>
              if nm.1 = reg_mux_node then .ok ()
              else .error "assert n == reg_mux_node"
            | none => .error "KeyError: self.reg_muxs"
          else .error "assert register has to be connected together with a reg mux"
        | _ => .error "unreachable: erasing from a two-element list"
      else .error "ValueError: list.remove"
    else .error "assert register mux can only have 2 incoming connections"
  | _ => .error "assert pipeline register only has 1 connection"

def SB_connect_regs_check (g : Graph) (reg_muxs : List (String × GNode × Mux))
    (regs : List (String × GNode)) : Except String Unit :=
  forEachE regs fun p => SB_connect_regs_one g reg_muxs p.2

/-- Configuration registration for switch selectors (lines 207-213): the
loop's first action for an entry is the mux.height test of line 209, which
reads height off the tuple stored at line 234 and faults. -/
def SB_build_registers_sb (acc : List (String × Nat)) :
    List (String × GNode × (Mux × String)) →
    Except String (List (String × Nat))
  | [] => .ok acc
  | _ :: _ => .error "AttributeError: tuple object has no attribute height" 

/-- Configuration registration for register muxes (lines 215-221): every
register mux is a height-2 selector and receives a select register. -/
def SB_build_registers_rm (acc : List (String × Nat)) :
    List (String × GNode × Mux) → Except String (List (String × Nat))
  | [] => .ok acc
  | (_, rm, mux) :: rest =>
    if mux.height = 2 then
      if mux.sel_size > 0 then
        match add_config acc (get_mux_sel_name rm) mux.sel_size with
        | .error e => .error e
        | .ok acc2 => SB_build_registers_rm acc2 rest
      else .error "assert mux.sel_size > 0"
    else .error "assert mux.height == 2"

def SB_name (sbx : SwitchBoxDesc) (core_name : String) : String :=
  "SB_ID" ++ toString sbx.id ++ "_" ++ toString sbx.num_track ++ "TRACKS_B" ++
    toString sbx.width ++ "_" ++ core_name

/-- SB.__init__ (lines 144-222).  Line 234 stores the whole (mux, name)
pair returned by create_mux as the second component of each sb_muxs entry,
so every later pass that unpacks (sb, mux) holds a tuple where it expects a
Mux; the passes below reproduce the resulting AttributeErrors in source
order.  Only a switchbox with no switch nodes compiles. -/
def SB_create (g : Graph) (sbx : SwitchBoxDesc)
    (config_addr_width config_data_width : Nat) (core_name : String)
    (stall_signal_width : Nat) : Except String SBCircuit :=
  let sb_muxs := sbx.sbNodes.map fun n => (n.nodeStr, n, create_mux g n)
  match SB_build_reg_muxs g sbx.reg_muxs with
  | .error e => .error e
  | .ok reg_muxs =>
    let regs := sbx.registers
    match SB_lift_ports_pass sb_muxs with
    | .error e => .error e
    | .ok _ =>
      match SB_connect_sbs_check g sb_muxs with
      | .error e => .error e
      | .ok _ =>
        match SB_connect_sb_out_check g sb_muxs reg_muxs regs with
        | .error e => .error e
        | .ok _ =>
          match SB_connect_regs_check g reg_muxs regs with
          | .error e => .error e
          | .ok _ =>
            match SB_build_registers_sb [] sb_muxs with
            | .error e => .error e
            | .ok r1 =>
              match SB_build_registers_rm r1 reg_muxs with
              | .error e => .error e
              | .ok registers =>
                .ok { name := SB_name sbx core_name,
                      switchbox := sbx,
                      sb_muxs := sb_muxs,
                      reg_muxs := reg_muxs,
                      regs := regs,
                      ports :=
                        (if sb_muxs.length > 0 then
                          ["clk", "reset", "read_config_data"] else []) ++
                        (if regs.length > 0 then ["stall"] else []) ++
                        sb_muxs.map (fun p => create_name p.1) ++
                        (if sb_muxs.length > 0 then ["config"] else []),
                      registers := registers,
                      mux_name_to_node :=
                        reg_muxs.map fun p => (get_mux_sel_name p.2.1, p.2.1) }

/-! ## Tile compiler (class TileCircuit, circuit.py lines 336-750)

A tile merges the per-bit-width Tile descriptions sharing one coordinate.  The
functional core and the CoreInterface around it live outside circuit.py; the
CoreDesc structure records exactly what the tile compiler reads from them:
the core name, its port names, the (width, name) pairs of its interface inputs
and outputs, and the port lists of the opaque feature generators the core
contributes. -/

structure CoreDesc where
  name : String
  ports : List String
  inputs : List (Nat × String)
  outputs : List (Nat × String)
  featurePorts : List (List String)
deriving DecidableEq, Repr

structure TileDesc where
  track_width : Nat
  x : Int
  y : Int
  core : Option CoreDesc
  ports : List (String × GNode)
  switchbox : SwitchBoxDesc
deriving DecidableEq, Repr

/-- A feature of the tile: an opaque core feature, a compiled connection box
or a compiled switch box.  Feature address = index in the tile feature
list. -/
inductive Feature
  | core (idx : Nat) (fports : List String)
  | cb (c : CBCircuit)
  | sb (s : SBCircuit)
deriving DecidableEq, Repr

def Feature.fports : Feature → List String
  | .core _ ps => ps
  | .cb c => c.ports
  | .sb s => s.ports

def Feature.fregisters : Feature → List (String × Nat)
  | .core _ _ => []
  | .cb c => c.registers
  | .sb s => s.registers

def Feature.fname : Feature → String
  | .core i _ => "core_feature_" ++ toString i
  | .cb c => c.name
  | .sb s => s.name

structure TileCircuitModel where
  x : Int
  y : Int
  core : Option CoreDesc
  tiles : List (Nat × TileDesc)
  cbs : List (String × CBCircuit)
  sbs : List (Nat × SBCircuit)
  features : List Feature
  ports : List String
  wires : List (String × String)
  finalized : Bool
  config_addr_width : Nat
  config_data_width : Nat
  tile_id_width : Nat
  full_config_addr_width : Nat
deriving DecidableEq, Repr, Inhabited

/-- Sanity pass of TileCircuit.__init__ (lines 368-389): every dict key equals
its tile track width, and all tiles share one coordinate and one core. -/
def tile_sanity_check : List (Nat × TileDesc) →
    Option (Int × Int × Option CoreDesc) → Except String (Int × Int × Option CoreDesc)
  | [], none => .error "assert x != -1 and y != -1"
  | [], some acc => .ok acc
  | (bw, tile) :: rest, acc =>
    if bw = tile.track_width then
      match acc with
      | none => tile_sanity_check rest (some (tile.x, tile.y, tile.core))
      | some (x, y, core) =>
        if tile.x = x then
          if tile.y = y then
            if tile.core = core then tile_sanity_check rest (some (x, y, core))
            else .error "assert core == tile.core"
          else .error "assert y == tile.y"
        else .error "assert x == tile.x"
    else .error "assert bit_width == tile.track_width"

/-- CB/SB construction pass (lines 400-432): one connection box per connected
input port, one switch box per bit width. -/
def tile_build_circuits (g : Graph)
    (config_addr_width config_data_width stall_signal_width : Nat)
    (core_name : String) :
    List (Nat × TileDesc) → List (String × CBCircuit) → List (Nat × SBCircuit) →
    Except String (List (String × CBCircuit) × List (Nat × SBCircuit))
  | [], cbs, sbs => .ok (cbs, sbs)
  | (bw, tile) :: rest, cbs, sbs =>
    let rec buildPorts : List (String × GNode) → List (String × CBCircuit) →
        Except String (List (String × CBCircuit))
      | [], acc => .ok acc
      | (_, pnode) :: prest, acc =>
        if (g.connOut pnode).length = 0 then
          if bw = pnode.width then
            if (g.connIn pnode).length = 0 then buildPorts prest acc
            else
              match CB_create g pnode config_addr_width config_data_width with
              | .error e => .error e
              | .ok cb => buildPorts prest (acc ++ [(pnode.name, cb)])
          else .error "assert bit_width == port_node.width"
        else
          if (g.connIn pnode).length = 0 then
            if bw = pnode.width then buildPorts prest acc
            else .error "assert bit_width == port_node.width"
          else .error "assert len(port_node.get_conn_in()) == 0"
    match buildPorts tile.ports cbs with
    | .error e => .error e
    | .ok cbs2 =>
      match SB_create g tile.switchbox config_addr_width config_data_width
          core_name stall_signal_width with
      | .error e => .error e
      | .ok sb =>
        tile_build_circuits g config_addr_width config_data_width
          stall_signal_width core_name rest cbs2 (sbs ++ [(sb.switchbox.width, sb)])

/-- Switch-box port lifting pass (lines 434-450): every switch node of every
switch box sits at the tile coordinate and its per-box port is re-exposed on
the tile. -/
def tile_lift_sb_ports (g : Graph) (x y : Int) :
    List (Nat × SBCircuit) → Except String (List String)
  | [] => .ok []
  | (_, sbc) :: rest =>
    if sbc.switchbox.x = x ∧ sbc.switchbox.y = y then
      let rec liftNodes : List GNode → Except String (List String)
        | [] => .ok []
        | sb :: ns =>
          match List.lookup sb.nodeStr sbc.sb_muxs with
          | none => .error "KeyError: sb_muxs"
          | some nm =>
            if nm.1 = sb then
              if sb.x = x ∧ sb.y = y then
                let sb_name := create_name sb.nodeStr
                if sb_name ∈ sbc.ports then
                  match liftNodes ns with
                  | .error e => .error e
                  | .ok names => .ok (sb_name :: names)
                else .error "KeyError: switchbox.ports"
              else .error "assert sb.x == self.x and sb.y == self.y"
            else .error "assert node == sb"
      match liftNodes sbc.switchbox.sbNodes with
      | .error e => .error e
      | .ok names =>
        match tile_lift_sb_ports g x y rest with
        | .error e => .error e
        | .ok names2 => .ok (names ++ names2)
    else .error "assert switchbox coordinate equals tile coordinate"

/-- Connection-box input wiring pass (lines 452-469), validation only: every
incoming source of a connection-box port node is a switch node or a register
mux; a same-coordinate IN source passes the lookups of lines 464-465 and then
line 466 reads ports off the tuple-valued sb_muxs entry and faults;
same-coordinate OUT sources go through the switch box's lifted ports.
The io attribute of a RegisterMuxNode is defined in cyclone.py (outside
src/); modelled from the spec: register-mux sources of a connection box are
boundary outputs of a neighbouring tile, and same-coordinate wiring treats
them like lifted OUT ports (spec 4.5 cross-wiring restricted to matching
coordinates). -/
def tile_connect_cb_node (sbs : List (Nat × SBCircuit)) (x y : Int)
    (node : GNode) : Except String Unit :=
  match node.kind with
  | .switchBoxNode dir =>
    if node.x ≠ x ∨ node.y ≠ y then .ok ()
    else
      match List.lookup node.width sbs with
      | none => .error "KeyError: self.sbs"
      | some sbc =>
        if dir = .SB_IN then
          match List.lookup node.nodeStr sbc.sb_muxs with
          | some nm =>
            if nm.1 = node then
              .error "AttributeError: tuple object has no attribute ports"
            else .error "assert n == node"
          | none => .error "KeyError: sb_muxs"
        else
          if create_name node.nodeStr ∈ sbc.ports then .ok ()
          else .error "KeyError: sb_circuit.ports"
  | .registerMuxNode =>
    if node.x ≠ x ∨ node.y ≠ y then .ok ()
    else
      match List.lookup node.width sbs with
      | none => .error "KeyError: self.sbs"
      | some sbc =>
        if create_name node.nodeStr ∈ sbc.ports then .ok ()
        else .error "KeyError: sb_circuit.ports"
  | _ => .error "assert isinstance(node, (SwitchBoxNode, RegisterMuxNode))"

def tile_connect_cbs_check (g : Graph) (cbs : List (String × CBCircuit))
    (sbs : List (Nat × SBCircuit)) (x y : Int) : Except String Unit :=
  forEachE cbs fun p =>
    forEachE (g.connIn p.2.node) (tile_connect_cb_node sbs x y)

/-- Core-to-switch-box wiring pass (lines 471-495): each core output port node
feeds same-coordinate switch nodes.  The index and lookups of lines 483-486
and the assert of line 487 run, and then the wire call of line 495 reads
mux.ports.I off the tuple-valued sb_muxs entry and faults (the port added at
lines 489-493 never becomes observable).  A tile compiles only if the loop
body of lines 478-495 is vacuous at this tile's coordinate. -/
def tile_connect_core_ports (g : Graph) :
    List (Nat × TileDesc) → List (Nat × SBCircuit) → Int → Int →
    Except String Unit
  | [], _, _, _ => .ok ()
  | (_, tile) :: rest, sbs, x, y =>
    let rec overPorts : List (String × GNode) → Except String Unit
      | [] => .ok ()
      | (_, pnode) :: prest =>
        if (g.connOut pnode).length > 0 then
          if (g.connIn pnode).length = 0 then
            let rec overSbs : List GNode → Except String Unit
              | [] => .ok ()
              | sb_node :: ns =>
                match sb_node.kind with
                | .switchBoxNode _ =>
                  if sb_node.x ≠ x ∨ sb_node.y ≠ y then overSbs ns
                  else
                    if pnode ∈ g.connIn sb_node then
                      match List.lookup pnode.width sbs with
                      | none => .error "KeyError: self.sbs"
                      | some sbc =>
                        match List.lookup sb_node.nodeStr sbc.sb_muxs with
                        | none => .error "KeyError: sb_muxs"
                        | some nm =>
                          if nm.1 = sb_node then
                            .error "AttributeError: tuple object has no attribute ports"
                          else .error "assert n == sb_node"
                    else .error "ValueError: port_node not in sb conn_in"
                | _ => .error "assert isinstance(sb_node, SwitchBoxNode)"
            match overSbs (g.connOut pnode) with
            | .error e => .error e
            | .ok _ => overPorts prest
          else .error "assert len(port_node.get_conn_in()) == 0"
        else overPorts prest
    match overPorts tile.ports with
    | .error e => .error e
    | .ok _ => tile_connect_core_ports g rest sbs x y

/-- TileCircuit.__lift_ports (lines 708-737): when a switch box has zero
tracks, the core interface ports of that bit width are lifted directly to the
tile boundary. -/
def tile_lift_ports (g : Graph) (tiles : List (Nat × TileDesc))
    (core_interface : Option CoreDesc) (cbs : List (String × CBCircuit)) :
    List (Nat × SBCircuit) → Except String (List String)
  | [] => .ok []
  | (bw, sbc) :: rest =>
    if sbc.switchbox.num_track > 0 then tile_lift_ports g tiles core_interface cbs rest
    else
      match core_interface with
      | none => tile_lift_ports g tiles core_interface cbs rest
      | some ci =>
        let rec liftIns : List (Nat × String) → Except String (List String)
          | [] => .ok []
          | (bt, pname) :: ps =>
            if bt ≠ bw then liftIns ps
            else
              match List.lookup bw tiles with
              | none => .error "KeyError: self.tiles"
              | some tile =>
                match List.lookup pname tile.ports with
                | none => .error "KeyError: tile.ports"
                | some pnode =>
                  if (g.connIn pnode).length ≠ 0 then
                    match List.lookup pname cbs with
                    | none => .error "KeyError: self.cbs"
                    | some _ =>
                      match liftIns ps with
                      | .error e => .error e
                      | .ok names => .ok (pname :: names)
                  else
                    match liftIns ps with
                    | .error e => .error e
                    | .ok names => .ok (pname :: names)
        match liftIns ci.inputs with
        | .error e => .error e
        | .ok inNames =>
          let outNames := (ci.outputs.filter fun p => p.1 = bw).map Prod.snd
          match tile_lift_ports g tiles core_interface cbs rest with
          | .error e => .error e
          | .ok names2 => .ok (inNames ++ outNames ++ names2)

/-- Feature list construction (lines 509-527): core features first, then
connection boxes by sorted port name, then switch boxes by sorted bit
width. -/
def buildFeatures (core : Option CoreDesc) (cbs : List (String × CBCircuit))
    (sbs : List (Nat × SBCircuit)) : List Feature :=
  (match core with
   | some c => c.featurePorts.enum.map fun p => Feature.core p.1 p.2
   | none => []) ++
  (((cbs.map Prod.fst).insertionSort strLe).filterMap fun n =>
    (List.lookup n cbs).map Feature.cb) ++
  (((sbs.map Prod.fst).insertionSort (· ≤ ·)).filterMap fun w =>
    (List.lookup w sbs).map Feature.sb)

/-- TileCircuit.__init__ in full: sanity checks, per-width CB/SB compilation,
port lifting, wiring validation, core-port injection into switch boxes, and
the ordered feature list.  The hash bookkeeping of lines 534-540 carries no
structural information and is not recorded. -/
def TileCircuit_create (g : Graph) (tiles : List (Nat × TileDesc))
    (config_addr_width config_data_width : Nat)
    (tile_id_width full_config_addr_width stall_signal_width : Nat) :
    Except String TileCircuitModel :=
  match tile_sanity_check tiles none with
  | .error e => .error e
  | .ok (x, y, core) =>
    let core_name := match core with
      | some c => c.name
      | none => ""
    match tile_build_circuits g config_addr_width config_data_width
        stall_signal_width core_name tiles [] [] with
    | .error e => .error e
    | .ok (cbs, sbs) =>
      match tile_lift_sb_ports g x y sbs with
      | .error e => .error e
      | .ok sbPortNames =>
        match tile_connect_cbs_check g cbs sbs x y with
        | .error e => .error e
        | .ok _ =>
          match tile_connect_core_ports g tiles sbs x y with
          | .error e => .error e
          | .ok _ =>
            match tile_lift_ports g tiles core cbs sbs with
            | .error e => .error e
            | .ok liftedNames =>
              .ok { x := x, y := y, core := core, tiles := tiles,
                    cbs := cbs, sbs := sbs,
                    features := buildFeatures core cbs sbs,
                    ports := sbPortNames ++ ["tile_id", "stall", "reset"] ++
                      liftedNames,
                    wires := [],
                    finalized := false,
                    config_addr_width := config_addr_width,
                    config_data_width := config_data_width,
                    tile_id_width := tile_id_width,
                    full_config_addr_width := full_config_addr_width }

/-! ## Route resolver (get_route_bitstream_config, lines 686-744) -/

/-- TileCircuit.__find_reg_index: position of the node's selector-register
name in the owning feature's sorted register-name list; a missing name is a
ValueError (list.index). -/
def find_reg_index (circuit : Feature) (node : GNode) : Except String Nat :=
  let config_names := (circuit.fregisters.map Prod.fst).insertionSort strLe
  match config_names.indexOf? (get_mux_sel_name node) with
  | some i => .ok i
  | none => .error "ValueError: mux_sel_name is not in config_names"

/-- The owning circuit chosen by get_route_bitstream_config: the switch box of
the source width for switch and register-mux destinations, the connection box
named after the destination for port destinations. -/
def route_circuit (tc : TileCircuitModel) (src dst : GNode) :
    Except String Feature :=
  match dst.kind with
  | .switchBoxNode _ =>
    match List.lookup src.width tc.sbs with
    | some s => .ok (.sb s)
    | none => .error "KeyError: self.sbs"
  | .portNode =>
    match List.lookup dst.name tc.cbs with
    | some c => .ok (.cb c)
    | none => .error "KeyError: self.cbs"
  | .registerMuxNode =>
    match List.lookup src.width tc.sbs with
    | some s => .ok (.sb s)
    | none => .error "KeyError: self.sbs"
  | .registerNode => .error "NotImplementedError"

def get_route_bitstream_config (g : Graph) (tc : TileCircuitModel)
    (src dst : GNode) : Except String (Nat × Nat × Nat) :=
  if src.width = dst.width then
    match List.lookup src.width tc.tiles with
    | none => .error "KeyError: self.tiles"
    | some tile =>
      if dst.x = tile.x ∧ dst.y = tile.y then
        if dst ∈ g.connOut src then
          let config_data := (g.connIn dst).indexOf src
          match route_circuit tc src dst with
          | .error e => .error e
          | .ok circuit =>
            match find_reg_index circuit dst with
            | .error e => .error e
            | .ok reg_index =>
              match tc.features.indexOf? circuit with
              | some feature_addr => .ok (reg_index, feature_addr, config_data)
              | none => .error "ValueError: circuit not in features"
        else .error "assert dst_node in src_node"
      else .error "assert dst_node.x == tile.x and dst_node.y == tile.y"
  else .error "assert src_node.width == dst_node.width"

/-! ## Configuration address decomposition (lines 356-366) and the decode
logic of finalize (lines 630-677)

A slice is the pair (start, stop) of Python bit indices; extracting it from an
address value shifts right by start and keeps stop - start bits. -/

def feature_addr_slice (full_width tile_id_width config_addr_width : Nat) :
    Nat × Nat :=
  (full_width - tile_id_width, full_width - config_addr_width)

def tile_id_slice (tile_id_width : Nat) : Nat × Nat := (0, tile_id_width)

def feature_config_slice (full_width config_addr_width : Nat) : Nat × Nat :=
  (full_width - config_addr_width, full_width)

def sliceBits (addr : Nat) (s : Nat × Nat) : Nat :=
  addr / 2 ^ s.1 % 2 ^ (s.2 - s.1)

/-- eq_tile (lines 633-637): the tile_id input compared with the tile-id bit
range of the incoming address. -/
def tile_eq_tile (tile_id_width tile_id addr : Nat) : Bool :=
  tile_id = sliceBits addr (tile_id_slice tile_id_width)

/-- write_and_tile (lines 646-648): address match AND the write bit. -/
def write_and_tile (tile_id_width tile_id addr : Nat) (write : Bool) : Bool :=
  tile_eq_tile tile_id_width tile_id addr && write

/-- DECODE_FEATURE_i (lines 662-668): the feature-address bit range compared
with the feature index. -/
def decode_feat (full_width tile_id_width config_addr_width addr i : Nat) :
    Bool :=
  sliceBits addr (feature_addr_slice full_width tile_id_width config_addr_width)
    = i

/-- FEATURE_AND_i (lines 665-675): each feature's config write enable is its
decode output AND the tile-level write acceptance. -/
def feature_write_en (full_width tile_id_width config_addr_width : Nat)
    (tile_id addr : Nat) (write : Bool) (i : Nat) : Bool :=
  decode_feat full_width tile_id_width config_addr_width addr i &&
    write_and_tile tile_id_width tile_id addr write

/-- Modelled from the spec: the external ConfigRegister primitive (zelus)
latches config_data, truncated to its width, exactly when its config_en input
is high and the feature-level config_addr equals its assigned address
(spec 4.4: a shared address/data/write bus wired to every register). -/
structure ConfigRegState where
  addr : Nat
  width : Nat
  value : Nat
deriving DecidableEq, Repr

def ConfigRegState.step (r : ConfigRegState) (config_addr config_data : Nat)
    (config_en : Bool) : ConfigRegState :=
  if config_en && (config_addr = r.addr : Bool) then
    { r with value := config_data % 2 ^ r.width }
  else r

/-- One configuration-write cycle of a finalized tile, as wired by finalize:
feature i sees the register-address bit range of the incoming address on its
config bus and its own feature_write_en as config_en. -/
def tile_write_step (full_width tile_id_width config_addr_width tile_id : Nat)
    (featRegs : List (List ConfigRegState)) (addr config_data : Nat)
    (write : Bool) : List (List ConfigRegState) :=
  featRegs.enum.map fun p =>
    p.2.map fun r =>
      r.step (sliceBits addr (feature_config_slice full_width config_addr_width))
        config_data
        (feature_write_en full_width tile_id_width config_addr_width tile_id
          addr write p.1)

/-! ## Tile finalization (lines 575-677) -/

/-- TileCircuit.__should_add_config (lines 575-587): scan the features in
order; a feature exposing a config port makes the tile configurable, and a
feature without config must not expose reset. -/
def should_add_config : List Feature → Except String Bool
  | [] => .ok false
  | f :: rest =>
    if "config" ∈ f.fports then .ok true
    else
      if "reset" ∈ f.fports then .error "assert reset not in feature.ports"
      else should_add_config rest

/-- The stall fan-out recorded by TileCircuit.__add_stall (lines 546-558);
the core is wired too when it exposes the port (its port objects are distinct
from the feature ports unless the core itself was registered as a feature —
the dedup guard of lines 554-556). -/
def tile_stall_wires (tc : TileCircuitModel) : List (String × String) :=
  ((tc.features.filter fun f => "stall" ∈ f.fports).map
    fun f => (("stall" : String), f.fname ++ ".stall")) ++
  (match tc.core with
   | some c =>
     if "stall" ∈ c.ports then [(("stall" : String), "core.stall")] else []
   | none => [])

/-- The reset fan-out recorded by TileCircuit.__add_reset (lines 560-573). -/
def tile_reset_wires (tc : TileCircuitModel) : List (String × String) :=
  ((tc.features.filter fun f => "reset" ∈ f.fports).map
    fun f => (("reset" : String), f.fname ++ ".reset")) ++
  (match tc.core with
   | some c =>
     if "reset" ∈ c.ports then [(("reset" : String), "core.reset")] else []
   | none => [])

/-- TileCircuit.finalize (lines 589-677).  A second call faults; stall and
reset are fanned out to every feature exposing the port (and to the core);
the configuration surface (config/clk/read_config_data ports and the decode
logic modelled by feature_write_en and tile_write_step) is added only when
some feature exposes a config port. -/
def TileCircuit_finalize (tc : TileCircuitModel) :
    Except String TileCircuitModel :=
  if tc.finalized then .error "Exception: Circuit already finalized"
  else
    match should_add_config tc.features with
    | .error e => .error e
    | .ok false =>
      .ok { tc with finalized := true,
                    wires := tc.wires ++ tile_stall_wires tc ++
                      tile_reset_wires tc }
    | .ok true =>
      .ok { tc with finalized := true,
                    wires := tc.wires ++ tile_stall_wires tc ++
                      tile_reset_wires tc,
                    ports := tc.ports ++ ["config", "clk", "read_config_data"] }


/-! ## General helper lemmas -/

theorem forEachE_ok {α : Type} {l : List α} {f : α → Except String Unit}
    {u : Unit} (h : forEachE l f = .ok u) : ∀ a ∈ l, f a = .ok () := by
  induction l with
  | nil => intro a ha; cases ha
  | cons b rest ih =>
    intro a ha
    rw [forEachE] at h
    rcases hfb : f b with e | v
    · rw [hfb] at h; simp at h
    · rw [hfb] at h
      simp only [] at h
      rcases List.mem_cons.mp ha with rfl | ha2
      · rw [hfb]
      · exact ih h a ha2

theorem indexOf?_of_mem {α : Type} [DecidableEq α] {a : α} {l : List α}
    (h : a ∈ l) : l.indexOf? a = some (l.indexOf a) := by
  induction l with
  | nil => cases h
  | cons b rest ih =>
    rw [List.indexOf?_cons]
    by_cases hba : b = a
    · subst hba
      simp
    · have hne : (b == a) = false := beq_eq_false_iff_ne.mpr hba
      rw [hne]
      simp only [Bool.false_eq_true, if_false]
      rcases List.mem_cons.mp h with rfl | h2
      · exact absurd rfl hba
      · rw [ih h2, List.indexOf_cons_ne _ hba]
        rfl

theorem lookup_of_mem_nodup {α β : Type} [DecidableEq α]
    {l : List (α × β)} {k : α} {v : β}
    (hnd : (l.map Prod.fst).Nodup) (hmem : (k, v) ∈ l) :
    List.lookup k l = some v := by
  induction l with
  | nil => cases hmem
  | cons p rest ih =>
    obtain ⟨pk, pv⟩ := p
    rw [List.map_cons, List.nodup_cons] at hnd
    rcases List.mem_cons.mp hmem with heq | hmem2
    · cases heq
      simp [List.lookup]
    · have hk : k ≠ pk := by
        intro hkp
        apply hnd.1
        rw [← hkp]
        exact List.mem_map.mpr ⟨(k, v), hmem2, rfl⟩
      have : (k == pk) = false := beq_eq_false_iff_ne.mpr hk
      simp only [List.lookup, this]
      exact ih hnd.2 hmem2

theorem add_config_ok {regs r : List (String × Nat)} {n : String} {w : Nat}
    (h : add_config regs n w = .ok r) : r = regs ++ [(n, w)] := by
  unfold add_config at h
  split at h
  · cases h
  · cases h; rfl

/-! ## Allocator lemmas and claim C2 -/

theorem sorted_config_names_sorted (regs : List (String × Nat)) :
    (sorted_config_names regs).Sorted strLe :=
  List.sorted_insertionSort strLe (regs.map Prod.fst)

theorem sorted_config_names_perm (regs : List (String × Nat)) :
    List.Perm (sorted_config_names regs) (regs.map Prod.fst) :=
  List.perm_insertionSort strLe (regs.map Prod.fst)

/-- Claim C2: after finalization the register addresses are exactly 0..n-1 in
lexicographically sorted name order, every registered name receives the
address equal to its position in the sorted name list, and the address map
only depends on the set of registered names, not on registration order. -/
theorem claim_C2_alloc (regs regs2 : List (String × Nat))
    (hnd : (regs.map Prod.fst).Nodup)
    (hperm : List.Perm (regs.map Prod.fst) (regs2.map Prod.fst)) :
    (config_addr_assignment regs).map Prod.fst = sorted_config_names regs ∧
    ((config_addr_assignment regs).map Prod.fst).Sorted strLe ∧
    (config_addr_assignment regs).map Prod.snd = List.range regs.length ∧
    (∀ n ∈ regs.map Prod.fst,
      (n, (sorted_config_names regs).indexOf n) ∈ config_addr_assignment regs) ∧
    config_addr_assignment regs = config_addr_assignment regs2 := by
  have hmapfst : (config_addr_assignment regs).map Prod.fst =
      sorted_config_names regs := by
    unfold config_addr_assignment
    rw [List.map_map]
    exact List.enum_map_snd _
  refine ⟨hmapfst, ?_, ?_, ?_, ?_⟩
  · rw [hmapfst]; exact sorted_config_names_sorted regs
  · unfold config_addr_assignment
    rw [List.map_map]
    have : (Prod.snd ∘ fun p : Nat × String => (p.2, p.1)) = Prod.fst := rfl
    rw [this, List.enum_map_fst]
    congr 1
    calc (sorted_config_names regs).length
        = (regs.map Prod.fst).length := (sorted_config_names_perm regs).length_eq
      _ = regs.length := List.length_map _ _
  · intro n hn
    have hn2 : n ∈ sorted_config_names regs :=
      (sorted_config_names_perm regs).mem_iff.mpr hn
    have hlt : (sorted_config_names regs).indexOf n <
        (sorted_config_names regs).length := List.indexOf_lt_length.mpr hn2
    have hgfullname : (sorted_config_names regs)[(sorted_config_names regs).indexOf n] = n :=
      List.getElem_indexOf hlt
    have hmem : ((sorted_config_names regs).indexOf n,
        (sorted_config_names regs)[(sorted_config_names regs).indexOf n]) ∈
        (sorted_config_names regs).enum := by
      have := List.getElem_enum (sorted_config_names regs)
        (i := (sorted_config_names regs).indexOf n) (by simpa using hlt)
      exact this ▸ List.getElem_mem _
    rw [hgfullname] at hmem
    unfold config_addr_assignment
    exact List.mem_map.mpr ⟨_, hmem, rfl⟩
  · have hsorted_eq : sorted_config_names regs = sorted_config_names regs2 := by
      apply List.eq_of_perm_of_sorted
        (r := strLe) ?_ (sorted_config_names_sorted regs)
        (sorted_config_names_sorted regs2)
      exact ((sorted_config_names_perm regs).trans hperm).trans
        (sorted_config_names_perm regs2).symm
    unfold config_addr_assignment
    rw [hsorted_eq]

/-- Witness for C2: a concrete two-register unit, registered in both orders. -/
theorem claim_C2_alloc_witness :
    (config_addr_assignment [("b", 1), ("a", 2)]).map Prod.fst =
      sorted_config_names [("b", 1), ("a", 2)] ∧
    ((config_addr_assignment [("b", 1), ("a", 2)]).map Prod.fst).Sorted strLe ∧
    (config_addr_assignment [("b", 1), ("a", 2)]).map Prod.snd =
      List.range 2 ∧
    (∀ n ∈ [("b", 1), ("a", 2)].map (Prod.fst (β := Nat)),
      (n, (sorted_config_names [("b", 1), ("a", 2)]).indexOf n) ∈
        config_addr_assignment [("b", 1), ("a", 2)]) ∧
    config_addr_assignment [("b", 1), ("a", 2)] =
      config_addr_assignment [("a", 2), ("b", 1)] :=
  claim_C2_alloc [("b", 1), ("a", 2)] [("a", 2), ("b", 1)]
    (by decide) (by decide)

/-! ## Element synthesis and connection-box lemmas (claims C6, C7) -/

theorem create_mux_height (g : Graph) (node : GNode) :
    (create_mux g node).1.height = (g.connIn node).length := rfl

theorem create_mux_width (g : Graph) (node : GNode) :
    (create_mux g node).1.width = node.width := rfl

/-- Does a name start with the MUX marker? (claim C6 calls this the MUX
prefix). -/
def startsWithMUX (s : String) : Bool :=
  match s.data with
  | 'M' :: 'U' :: 'X' :: _ => true
  | _ => false

theorem containsMUX_MUX_append (s : String) :
    containsMUX ("MUX_" ++ s) = true := by
  show containsMUXChars ("MUX_" ++ s).data = true
  rw [String.data_append]
  rfl

/-- CB_create on a true selector (fan-in at least 2). -/
theorem CB_create_ok_mux (g : Graph) (node : GNode) (caw cdw : Nat)
    (hkind : node.kind = NodeKind.portNode)
    (hgt : 1 < (g.connIn node).length) :
    CB_create g node caw cdw = .ok
      { name := create_name node.nodeStr, node := node,
        mux := (create_mux g node).1,
        mux_name := (create_mux g node).2,
        ports := ["clk", "reset", "read_config_data", "I", "O", "config"],
        registers := [(get_mux_sel_name node, (create_mux g node).1.sel_size)],
        wires := [("I", "mux.I"), ("mux.O", "O"),
                  (get_mux_sel_name node ++ ".O", "mux.S")] } := by
  unfold CB_create
  rw [if_neg (by simp [hkind])]
  rw [if_pos (by rw [create_mux_height]; exact hgt)]
  have : add_config [] (get_mux_sel_name node) (create_mux g node).1.sel_size =
      .ok [(get_mux_sel_name node, (create_mux g node).1.sel_size)] := by
    unfold add_config
    simp
  rw [this]

/-- CB_create on a passthrough (fan-in exactly 1, or 0). -/
theorem CB_create_ok_wire (g : Graph) (node : GNode) (caw cdw : Nat)
    (hkind : node.kind = NodeKind.portNode)
    (hle : (g.connIn node).length ≤ 1) :
    CB_create g node caw cdw = .ok
      { name := create_name node.nodeStr, node := node,
        mux := (create_mux g node).1,
        mux_name := (create_mux g node).2,
        ports := ["I", "O"],
        registers := [],
        wires := [("I", "mux.I"), ("mux.O", "O")] } := by
  unfold CB_create
  rw [if_neg (by simp [hkind])]
  rw [if_neg (by rw [create_mux_height]; omega)]

/-- Counterexample to claim C6 as stated: a fan-in-2 port node whose mangled
name already contains MUX keeps its name unchanged, so the synthesized
selector name does not carry the MUX prefix. -/
def c6src1 : GNode :=
  { kind := .switchBoxNode .SB_IN, nodeStr := "s1", name := "s1",
    width := 4, x := 0, y := 0 }

def c6src2 : GNode :=
  { kind := .switchBoxNode .SB_IN, nodeStr := "s2", name := "s2",
    width := 4, x := 0, y := 0 }

def c6dst : GNode :=
  { kind := .portNode, nodeStr := "reg_MUX_in", name := "reg_MUX_in",
    width := 4, x := 0, y := 0 }

def c6graph : Graph := { edges := [(c6src1, c6dst), (c6src2, c6dst)] }

theorem claim_C6_counterexample :
    (c6graph.connIn c6dst).length = 2 ∧
    (create_mux c6graph c6dst).2 = "reg_MUX_in" ∧
    startsWithMUX (create_mux c6graph c6dst).2 = false := by
  refine ⟨by decide, by decide, by decide⟩

/-- Claim C6 (amended): for fan-in k at least 2 the element is a k-high,
node-width selector whose name contains the MUX marker (and is prefixed
MUX_ exactly when the mangled node name does not already contain MUX), and a
connection box allocates one select register of width ceil(log2(k)) for it;
for fan-in 1 the element name carries the WIRE prefix and no register is
allocated. -/
theorem claim_C6_element (g : Graph) (node : GNode) (caw cdw : Nat) :
    (2 ≤ (g.connIn node).length →
      (create_mux g node).1.height = (g.connIn node).length ∧
      (create_mux g node).1.width = node.width ∧
      containsMUX (create_mux g node).2 = true ∧
      (containsMUX (create_name node.nodeStr) = false →
        (create_mux g node).2 = "MUX_" ++ create_name node.nodeStr) ∧
      (node.kind = NodeKind.portNode →
        ∀ cb, CB_create g node caw cdw = .ok cb →
          cb.registers =
            [(get_mux_sel_name node, clog2 (g.connIn node).length)] ∧
          clog2 (g.connIn node).length = Nat.clog 2 (g.connIn node).length)) ∧
    ((g.connIn node).length = 1 →
      (create_mux g node).2 = "WIRE_" ++ create_name node.nodeStr ∧
      (node.kind = NodeKind.portNode →
        ∀ cb, CB_create g node caw cdw = .ok cb → cb.registers = [])) := by
  constructor
  · intro hk
    have hgt : (g.connIn node).length > 1 := by omega
    have hname : (create_mux g node).2 =
        if containsMUX (create_name node.nodeStr) = false then
          "MUX_" ++ create_name node.nodeStr
        else create_name node.nodeStr := by
      unfold create_mux
      simp [hgt]
    refine ⟨create_mux_height g node, create_mux_width g node, ?_, ?_, ?_⟩
    · rw [hname]
      by_cases hMU : containsMUX (create_name node.nodeStr) = false
      · rw [if_pos hMU]
        exact containsMUX_MUX_append _
      · rw [if_neg hMU]
        simpa using hMU
    · intro hMU
      rw [hname, if_pos hMU]
    · intro hkind cb hcb
      rw [CB_create_ok_mux g node caw cdw hkind hgt] at hcb
      cases hcb
      exact ⟨rfl, clog2_eq_clog _⟩
  · intro hk
    have hname : (create_mux g node).2 = "WIRE_" ++ create_name node.nodeStr := by
      unfold create_mux
      simp [hk]
    refine ⟨hname, ?_⟩
    intro hkind cb hcb
    rw [CB_create_ok_wire g node caw cdw hkind (by omega)] at hcb
    cases hcb
    rfl

/-- Witness for the amended C6 at a concrete fan-in-2 connection box and a
concrete fan-in-1 wire. -/
theorem claim_C6_element_witness :
    (2 ≤ (c6graph.connIn c6dst).length →
      (create_mux c6graph c6dst).1.height = (c6graph.connIn c6dst).length ∧
      (create_mux c6graph c6dst).1.width = c6dst.width ∧
      containsMUX (create_mux c6graph c6dst).2 = true ∧
      (containsMUX (create_name c6dst.nodeStr) = false →
        (create_mux c6graph c6dst).2 = "MUX_" ++ create_name c6dst.nodeStr) ∧
      (c6dst.kind = NodeKind.portNode →
        ∀ cb, CB_create c6graph c6dst 8 32 = .ok cb →
          cb.registers =
            [(get_mux_sel_name c6dst, clog2 (c6graph.connIn c6dst).length)] ∧
          clog2 (c6graph.connIn c6dst).length =
            Nat.clog 2 (c6graph.connIn c6dst).length)) ∧
    ((c6graph.connIn c6dst).length = 1 →
      (create_mux c6graph c6dst).2 = "WIRE_" ++ create_name c6dst.nodeStr ∧
      (c6dst.kind = NodeKind.portNode →
        ∀ cb, CB_create c6graph c6dst 8 32 = .ok cb → cb.registers = [])) :=
  claim_C6_element c6graph c6dst 8 32

/-- Claim C7: a connection box for a port with exactly one incoming edge
compiles to a pure wire: no config, clk, reset or read_config_data port, no
configuration register, a height-1 element wired straight from I to O. -/
theorem claim_C7_cb_passthrough (g : Graph) (node : GNode) (caw cdw : Nat)
    (hkind : node.kind = NodeKind.portNode)
    (hk : (g.connIn node).length = 1) :
    ∀ cb, CB_create g node caw cdw = .ok cb →
      cb.ports = ["I", "O"] ∧
      "config" ∉ cb.ports ∧ "clk" ∉ cb.ports ∧ "reset" ∉ cb.ports ∧
      "read_config_data" ∉ cb.ports ∧
      cb.registers = [] ∧
      cb.mux.height = 1 ∧
      cb.wires = [("I", "mux.I"), ("mux.O", "O")] := by
  intro cb hcb
  rw [CB_create_ok_wire g node caw cdw hkind (by omega)] at hcb
  cases hcb
  refine ⟨rfl, ?_, ?_, ?_, ?_, rfl, ?_, rfl⟩
  · simp
  · simp
  · simp
  · simp
  · rw [create_mux_height]; exact hk

def c7src : GNode :=
  { kind := .switchBoxNode .SB_IN, nodeStr := "t0", name := "t0",
    width := 1, x := 0, y := 0 }

def c7dst : GNode :=
  { kind := .portNode, nodeStr := "bit_in", name := "bit_in",
    width := 1, x := 0, y := 0 }

def c7graph : Graph := { edges := [(c7src, c7dst)] }

def c7cb : CBCircuit :=
  match CB_create c7graph c7dst 8 32 with
  | .ok cb => cb
  | .error _ => default

/-- Witness for C7 at a concrete one-input connection box. -/
theorem claim_C7_cb_passthrough_witness :
    c7cb.ports = ["I", "O"] ∧
    "config" ∉ c7cb.ports ∧ "clk" ∉ c7cb.ports ∧ "reset" ∉ c7cb.ports ∧
    "read_config_data" ∉ c7cb.ports ∧
    c7cb.registers = [] ∧
    c7cb.mux.height = 1 ∧
    c7cb.wires = [("I", "mux.I"), ("mux.O", "O")] :=
  claim_C7_cb_passthrough c7graph c7dst 8 32 rfl (by decide) c7cb (by rfl)

/-! ## Switch-box characterization lemmas -/

/-- The register-mux topology the spec requires: exactly two incoming
connections, one a RegisterNode and the other an OUT switch-box node. -/
def valid_reg_mux_shape (g : Graph) (rm : GNode) : Prop :=
  ∃ rn sn, rn.kind = NodeKind.registerNode ∧
    sn.kind = NodeKind.switchBoxNode SwitchBoxDir.SB_OUT ∧
    (g.connIn rm = [rn, sn] ∨ g.connIn rm = [sn, rn])

theorem SB_check_reg_mux_ok {g : Graph} {rm sbn : GNode}
    (h : SB_check_reg_mux g rm = .ok sbn) :
    sbn.kind = NodeKind.switchBoxNode SwitchBoxDir.SB_OUT ∧
    ∃ rn, rn.kind = NodeKind.registerNode ∧
      (g.connIn rm = [rn, sbn] ∨ g.connIn rm = [sbn, rn]) := by
  unfold SB_check_reg_mux at h
  split at h
  · next node1 node2 heq =>
    split at h
    · next h1 =>
      split at h
      · next dir h2 =>
        split at h
        · next hdir =>
          cases h
          subst hdir
          exact ⟨h2, node1, h1, Or.inl heq⟩
        · cases h
      · cases h
    · next h1 =>
      split at h
      · next h2 =>
        split at h
        · next dir h3 =>
          split at h
          · next hdir =>
            cases h
            subst hdir
            exact ⟨h3, node2, h2, Or.inr heq⟩
          · cases h
        · cases h
      · cases h
  · cases h

theorem SB_check_reg_mux_iff (g : Graph) (rm : GNode) :
    (∃ sbn, SB_check_reg_mux g rm = .ok sbn) ↔ valid_reg_mux_shape g rm := by
  constructor
  · rintro ⟨sbn, h⟩
    obtain ⟨hsk, rn, hrk, hor⟩ := SB_check_reg_mux_ok h
    exact ⟨rn, sbn, hrk, hsk, hor⟩
  · rintro ⟨rn, sn, hrk, hsk, hor⟩
    refine ⟨sn, ?_⟩
    unfold SB_check_reg_mux
    rcases hor with heq | heq
    · rw [heq]
      simp [hrk, hsk]
    · rw [heq]
      have hsn : ¬ sn.kind = NodeKind.registerNode := by
        rw [hsk]; intro hc; cases hc
      simp [hsn, hrk, hsk]

theorem SB_check_reg_mux_conn_two {g : Graph} {rm sbn : GNode}
    (h : SB_check_reg_mux g rm = .ok sbn) : (g.connIn rm).length = 2 := by
  obtain ⟨_, rn, _, hor⟩ := SB_check_reg_mux_ok h
  rcases hor with heq | heq <;> rw [heq] <;> rfl

theorem SB_build_reg_muxs_ok {g : Graph} :
    ∀ {l : List (String × GNode)} {r : List (String × GNode × Mux)},
    SB_build_reg_muxs g l = .ok r →
    (∀ q ∈ r, ∃ p ∈ l, q.2.1 = p.2 ∧ q.2.2 = (create_mux g p.2).1 ∧
      ∃ sbn, SB_check_reg_mux g p.2 = .ok sbn ∧ q.1 = sbn.nodeStr) ∧
    (∀ p ∈ l, (p.2.nodeStr, p.2, (create_mux g p.2).1).2.1 = p.2 →
      ∃ key, (key, p.2, (create_mux g p.2).1) ∈ r) := by
  intro l
  induction l with
  | nil =>
    intro r h
    cases h
    exact ⟨fun q hq => absurd hq (List.not_mem_nil q),
           fun p hp => absurd hp (List.not_mem_nil p)⟩
  | cons hd tl ih =>
    intro r h
    unfold SB_build_reg_muxs at h
    split at h
    · cases h
    · next sbn hchk =>
      split at h
      · cases h
      · next tlr htl =>
        cases h
        obtain ⟨ihs, ihm⟩ := ih htl
        constructor
        · intro q hq
          rcases List.mem_cons.mp hq with rfl | hq2
          · exact ⟨hd, List.mem_cons_self hd tl, rfl, rfl, sbn, hchk, rfl⟩
          · obtain ⟨p, hp, h1, h2, h3⟩ := ihs q hq2
            exact ⟨p, List.mem_cons_of_mem hd hp, h1, h2, h3⟩
        · intro p hp _
          rcases List.mem_cons.mp hp with rfl | hp2
          · exact ⟨sbn.nodeStr, List.mem_cons_self _ _⟩
          · obtain ⟨key, hkey⟩ := ihm p hp2 rfl
            exact ⟨key, List.mem_cons_of_mem _ hkey⟩

/-- The select-register entries added for register muxes. -/
def rm_sel_entries (l : List (String × GNode × Mux)) : List (String × Nat) :=
  l.map fun p => (get_mux_sel_name p.2.1, p.2.2.sel_size)

/-- The port-lifting loop of SB.__init__ completes only on an empty sb_muxs
dict: its first entry faults reading ports off the stored tuple. -/
theorem SB_lift_ports_pass_ok {l : List (String × GNode × (Mux × String))}
    {u : Unit} (h : SB_lift_ports_pass l = .ok u) : l = [] := by
  cases l with
  | nil => rfl
  | cons hd tl => cases h

/-- The switch-selector config loop (lines 207-213) completes only on an
empty sb_muxs dict: its first entry faults reading height off the tuple. -/
theorem SB_build_registers_sb_ok {acc r : List (String × Nat)}
    {l : List (String × GNode × (Mux × String))}
    (h : SB_build_registers_sb acc l = .ok r) : l = [] ∧ r = acc := by
  cases l with
  | nil => cases h; exact ⟨rfl, rfl⟩
  | cons hd tl => cases h

theorem SB_build_registers_rm_ok :
    ∀ {l : List (String × GNode × Mux)} {acc r : List (String × Nat)},
    SB_build_registers_rm acc l = .ok r → r = acc ++ rm_sel_entries l := by
  intro l
  induction l with
  | nil =>
    intro acc r h
    cases h
    simp [rm_sel_entries]
  | cons hd tl ih =>
    intro acc r h
    obtain ⟨k, nd, mux⟩ := hd
    unfold SB_build_registers_rm at h
    split at h
    · next hh =>
      split at h
      · next hsel =>
        split at h
        · cases h
        · next acc2 hadd =>
          rw [ih h, add_config_ok hadd]
          simp [rm_sel_entries]
      · cases h
    · cases h

/-- Destructuring SB_create: because port lifting faults on any stored switch
selector (the tuple of line 234), a successfully compiled switch box has no
switch nodes at all; its registers are exactly the register-mux select
entries. -/
theorem SB_create_ok {g : Graph} {sbx : SwitchBoxDesc} {caw cdw : Nat}
    {cn : String} {ssw : Nat} {s : SBCircuit}
    (h : SB_create g sbx caw cdw cn ssw = .ok s) :
    s.switchbox = sbx ∧
    sbx.sbNodes = [] ∧
    s.sb_muxs = [] ∧
    SB_build_reg_muxs g sbx.reg_muxs = .ok s.reg_muxs ∧
    s.regs = sbx.registers ∧
    SB_connect_regs_check g s.reg_muxs s.regs = .ok () ∧
    s.registers = rm_sel_entries s.reg_muxs := by
  simp only [SB_create] at h
  split at h
  · cases h
  · next reg_muxs hrm =>
    split at h
    · cases h
    · next u hlift =>
      have hnil : sbx.sbNodes = [] :=
        List.map_eq_nil.mp (SB_lift_ports_pass_ok hlift)
      split at h
      · cases h
      · next hsbs =>
        split at h
        · cases h
        · next hout =>
          split at h
          · cases h
          · next hregs =>
            split at h
            · cases h
            · next r1 hr1 =>
              split at h
              · cases h
              · next r2 hr2 =>
                cases h
                obtain ⟨-, hr1acc⟩ := SB_build_registers_sb_ok hr1
                subst hr1acc
                refine ⟨rfl, hnil, by simp [hnil], hrm, rfl, hregs, ?_⟩
                rw [SB_build_registers_rm_ok hr2]
                simp

/-! ## Claims C5 and C4: write decode and address decomposition -/

/-- Claim C5: each feature's write enable equals (tile-id range matches the
tile id) AND write AND (feature range decodes to the feature index); a write
whose tile-id field differs from the tile id asserts no write enable and
leaves every configuration register of the tile unchanged. -/
theorem claim_C5_write_decode (full t c tid addr data : Nat) (w : Bool)
    (featRegs : List (List ConfigRegState)) :
    (∀ i, feature_write_en full t c tid addr w i =
      ((tid = sliceBits addr (tile_id_slice t) : Bool) && w &&
       (sliceBits addr (feature_addr_slice full t c) = i : Bool))) ∧
    (tid ≠ sliceBits addr (tile_id_slice t) →
      (∀ i, feature_write_en full t c tid addr w i = false) ∧
      tile_write_step full t c tid featRegs addr data w = featRegs) := by
  constructor
  · intro i
    unfold feature_write_en decode_feat write_and_tile tile_eq_tile
    generalize decide (sliceBits addr (feature_addr_slice full t c) = i) = b1
    generalize decide (tid = sliceBits addr (tile_id_slice t)) = b2
    cases b1 <;> cases b2 <;> cases w <;> rfl
  · intro hne
    have hfe : ∀ i, feature_write_en full t c tid addr w i = false := by
      intro i
      unfold feature_write_en write_and_tile tile_eq_tile
      rw [decide_eq_false hne]
      simp
    refine ⟨hfe, ?_⟩
    unfold tile_write_step
    have hmapeq : ∀ p ∈ featRegs.enum,
        (p.2.map fun r => r.step
          (sliceBits addr (feature_config_slice full c)) data
          (feature_write_en full t c tid addr w p.1)) = p.2 := by
      intro p _
      rw [hfe p.1]
      have : ∀ r : ConfigRegState,
          r.step (sliceBits addr (feature_config_slice full c)) data false = r := by
        intro r
        unfold ConfigRegState.step
        simp
      simp [this]
    rw [List.map_congr_left hmapeq]
    exact List.enum_map_snd featRegs

/-- Witness for C5: a mismatched tile id (3 against address field 5) on an
8-bit address space leaves a one-register tile untouched. -/
theorem claim_C5_write_decode_witness :
    (∀ i, feature_write_en 8 4 2 3 5 true i =
      ((3 = sliceBits 5 (tile_id_slice 4) : Bool) && true &&
       (sliceBits 5 (feature_addr_slice 8 4 2) = i : Bool))) ∧
    ((∀ i, feature_write_en 8 4 2 3 5 true i = false) ∧
      tile_write_step 8 4 2 3 [[⟨0, 1, 0⟩]] 5 1 true = [[⟨0, 1, 0⟩]]) :=
  ⟨(claim_C5_write_decode 8 4 2 3 5 1 true [[⟨0, 1, 0⟩]]).1,
   (claim_C5_write_decode 8 4 2 3 5 1 true [[⟨0, 1, 0⟩]]).2 (by decide)⟩

/-- Claim C4 (amended): writing t for tile_id_width and c for the per-feature
config_addr_width, the three slices are the contiguous ranges [0, t),
[full - t, full - c) and [full - c, full) of the full address; provided the
constructor parameters satisfy full = 2t and c <= t they partition the
address, the feature range has the fixed width t - c (a parameter split,
independent of the tile feature count), and the register range is the high c
bits handed unchanged to each feature. -/
theorem claim_C4_addr_split (full t c addr : Nat) (hc : c ≤ t)
    (hf : full = 2 * t) (haddr : addr < 2 ^ full) :
    (tile_id_slice t).1 = 0 ∧
    (tile_id_slice t).2 = (feature_addr_slice full t c).1 ∧
    (feature_addr_slice full t c).2 = (feature_config_slice full c).1 ∧
    (feature_config_slice full c).2 = full ∧
    (feature_addr_slice full t c).2 - (feature_addr_slice full t c).1 = t - c ∧
    addr = sliceBits addr (tile_id_slice t) +
      2 ^ t * sliceBits addr (feature_addr_slice full t c) +
      2 ^ (full - c) * sliceBits addr (feature_config_slice full c) ∧
    sliceBits addr (feature_config_slice full c) = addr / 2 ^ (full - c) := by
  have hct : c ≤ full := by omega
  have hPQ : 2 ^ t * 2 ^ (t - c) = 2 ^ (full - c) := by
    rw [← pow_add]
    congr 1
    omega
  have h4 : addr / 2 ^ (full - c) < 2 ^ c := by
    apply Nat.div_lt_of_lt_mul
    calc addr < 2 ^ full := haddr
      _ = 2 ^ (full - c) * 2 ^ c := by rw [← pow_add]; congr 1; omega
  have h5 : addr / 2 ^ (full - c) % 2 ^ c = addr / 2 ^ (full - c) :=
    Nat.mod_eq_of_lt h4
  have hslice3 : sliceBits addr (feature_config_slice full c) =
      addr / 2 ^ (full - c) := by
    unfold sliceBits feature_config_slice
    simp only []
    rw [show full - (full - c) = c by omega]
    exact h5
  refine ⟨rfl, ?_, ?_, ?_, ?_, ?_, hslice3⟩
  · show t = full - t
    omega
  · show full - c = full - c
    rfl
  · show full = full
    rfl
  · show full - c - (full - t) = t - c
    omega
  · have hs1 : sliceBits addr (tile_id_slice t) = addr % 2 ^ t := by
      unfold sliceBits tile_id_slice
      simp
    have hs2 : sliceBits addr (feature_addr_slice full t c) =
        addr / 2 ^ t % 2 ^ (t - c) := by
      unfold sliceBits feature_addr_slice
      simp only []
      rw [show full - t = t by omega, show full - c - t = t - c by omega]
    rw [hs1, hs2, hslice3]
    have h3 : addr / 2 ^ t / 2 ^ (t - c) = addr / 2 ^ (full - c) := by
      rw [Nat.div_div_eq_div_mul, hPQ]
    have h2 : (addr / 2 ^ t) % 2 ^ (t - c) +
        2 ^ (t - c) * (addr / 2 ^ t / 2 ^ (t - c)) = addr / 2 ^ t :=
      Nat.mod_add_div _ _
    calc addr = addr % 2 ^ t + 2 ^ t * (addr / 2 ^ t) :=
          (Nat.mod_add_div addr (2 ^ t)).symm
      _ = addr % 2 ^ t + 2 ^ t * ((addr / 2 ^ t) % 2 ^ (t - c) +
            2 ^ (t - c) * (addr / 2 ^ t / 2 ^ (t - c))) := by rw [h2]
      _ = addr % 2 ^ t + 2 ^ t * ((addr / 2 ^ t) % 2 ^ (t - c)) +
            2 ^ t * 2 ^ (t - c) * (addr / 2 ^ t / 2 ^ (t - c)) := by ring
      _ = addr % 2 ^ t + 2 ^ t * (addr / 2 ^ t % 2 ^ (t - c)) +
            2 ^ (full - c) * (addr / 2 ^ (full - c)) := by rw [hPQ, h3]

/-- Witness for the amended C4 with the default tile parameters (full width
32, tile id width 16, per-feature address width 8) at address 0xABCD1234. -/
theorem claim_C4_addr_split_witness :
    (tile_id_slice 16).1 = 0 ∧
    (tile_id_slice 16).2 = (feature_addr_slice 32 16 8).1 ∧
    (feature_addr_slice 32 16 8).2 = (feature_config_slice 32 8).1 ∧
    (feature_config_slice 32 8).2 = 32 ∧
    (feature_addr_slice 32 16 8).2 - (feature_addr_slice 32 16 8).1 = 16 - 8 ∧
    2882343476 = sliceBits 2882343476 (tile_id_slice 16) +
      2 ^ 16 * sliceBits 2882343476 (feature_addr_slice 32 16 8) +
      2 ^ (32 - 8) * sliceBits 2882343476 (feature_config_slice 32 8) ∧
    sliceBits 2882343476 (feature_config_slice 32 8) =
      2882343476 / 2 ^ (32 - 8) :=
  claim_C4_addr_split 32 16 8 2882343476 (by decide) (by decide) (by decide)

/-! ## Concrete example fabrics

ex1: a switchbox description with two switch nodes, a pipeline register and
its register mux; because of the tuple stored at line 234 its compilation
faults during port lifting, which claim C8 exhibits.  ex3: an intentionally
empty tile.  ex4: a tile whose switchbox is empty and whose connection box
(data_in) has two incoming edges from switch nodes of a neighbouring tile —
the only kind of routable tile the code can actually build.  ex5: the same
shape with exactly one incoming edge. -/

def ex1ext1 : GNode :=
  { kind := .switchBoxNode .SB_OUT, nodeStr := "ext1", name := "ext1",
    width := 1, x := -1, y := 0 }

def ex1ext2 : GNode :=
  { kind := .switchBoxNode .SB_OUT, nodeStr := "ext2", name := "ext2",
    width := 1, x := -1, y := 0 }

def ex1sbIn : GNode :=
  { kind := .switchBoxNode .SB_IN, nodeStr := "sb_in", name := "sb_in",
    width := 1, x := 0, y := 0 }

def ex1sbOut : GNode :=
  { kind := .switchBoxNode .SB_OUT, nodeStr := "sb_out", name := "sb_out",
    width := 1, x := 0, y := 0 }

def ex1pIn : GNode :=
  { kind := .portNode, nodeStr := "data_in_node", name := "data_in",
    width := 1, x := 0, y := 0 }

def ex1pOut : GNode :=
  { kind := .portNode, nodeStr := "data_out_node", name := "data_out",
    width := 1, x := 0, y := 0 }

def ex1reg : GNode :=
  { kind := .registerNode, nodeStr := "reg0_node", name := "reg0",
    width := 1, x := 0, y := 0 }

def ex1rm : GNode :=
  { kind := .registerMuxNode, nodeStr := "rm0_node", name := "rm0",
    width := 1, x := 0, y := 0 }

def ex1graph : Graph :=
  { edges := [(ex1ext1, ex1sbIn), (ex1ext2, ex1sbIn),
              (ex1sbIn, ex1sbOut), (ex1pOut, ex1sbOut),
              (ex1sbIn, ex1pIn), (ex1sbOut, ex1pIn),
              (ex1sbOut, ex1reg), (ex1reg, ex1rm), (ex1sbOut, ex1rm)] }

def ex1sbx : SwitchBoxDesc :=
  { id := 0, num_track := 1, width := 1, x := 0, y := 0,
    sbNodes := [ex1sbIn, ex1sbOut],
    reg_muxs := [("rm0_key", ex1rm)],
    registers := [("reg0", ex1reg)] }

def ex3sbx : SwitchBoxDesc :=
  { id := 0, num_track := 0, width := 1, x := 0, y := 0,
    sbNodes := [], reg_muxs := [], registers := [] }

def ex3tile : TileDesc :=
  { track_width := 1, x := 0, y := 0, core := none, ports := [],
    switchbox := ex3sbx }

def ex3graph : Graph := { edges := [] }

def ex3tc : TileCircuitModel :=
  match TileCircuit_create ex3graph [(1, ex3tile)] 8 32 16 32 4 with
  | .ok tc => tc
  | .error _ => default

theorem ex3tc_create :
    TileCircuit_create ex3graph [(1, ex3tile)] 8 32 16 32 4 = .ok ex3tc := by
  rfl

def ex3tcf : TileCircuitModel :=
  match TileCircuit_finalize ex3tc with
  | .ok tc => tc
  | .error _ => default

def ex4ext1 : GNode :=
  { kind := .switchBoxNode .SB_OUT, nodeStr := "e4ext1", name := "e4ext1",
    width := 1, x := -1, y := 0 }

def ex4ext2 : GNode :=
  { kind := .switchBoxNode .SB_OUT, nodeStr := "e4ext2", name := "e4ext2",
    width := 1, x := -1, y := 0 }

def ex4pIn : GNode :=
  { kind := .portNode, nodeStr := "data_in_node", name := "data_in",
    width := 1, x := 0, y := 0 }

def ex4graph : Graph :=
  { edges := [(ex4ext1, ex4pIn), (ex4ext2, ex4pIn)] }

def ex4sbx : SwitchBoxDesc :=
  { id := 0, num_track := 0, width := 1, x := 0, y := 0,
    sbNodes := [], reg_muxs := [], registers := [] }

def ex4core : CoreDesc :=
  { name := "PE", ports := ["data_in"], inputs := [(1, "data_in")],
    outputs := [], featurePorts := [["aux"]] }

def ex4tile : TileDesc :=
  { track_width := 1, x := 0, y := 0, core := some ex4core,
    ports := [("data_in", ex4pIn)], switchbox := ex4sbx }

def ex4tc : TileCircuitModel :=
  match TileCircuit_create ex4graph [(1, ex4tile)] 8 32 16 32 4 with
  | .ok tc => tc
  | .error _ => default

def ex4cb : CBCircuit :=
  match CB_create ex4graph ex4pIn 8 32 with
  | .ok cb => cb
  | .error _ => default

theorem ex4tc_create :
    TileCircuit_create ex4graph [(1, ex4tile)] 8 32 16 32 4 = .ok ex4tc := by
  rfl

def ex5ext : GNode :=
  { kind := .switchBoxNode .SB_OUT, nodeStr := "e5ext", name := "e5ext",
    width := 1, x := -1, y := 0 }

def ex5pIn : GNode :=
  { kind := .portNode, nodeStr := "bit_in_node", name := "bit_in",
    width := 1, x := 0, y := 0 }

def ex5graph : Graph := { edges := [(ex5ext, ex5pIn)] }

def ex5core : CoreDesc :=
  { name := "IOCore", ports := ["bit_in"], inputs := [(1, "bit_in")],
    outputs := [], featurePorts := [] }

def ex5tile : TileDesc :=
  { track_width := 1, x := 0, y := 0, core := some ex5core,
    ports := [("bit_in", ex5pIn)], switchbox := ex4sbx }

def ex5tc : TileCircuitModel :=
  match TileCircuit_create ex5graph [(1, ex5tile)] 8 32 16 32 4 with
  | .ok tc => tc
  | .error _ => default

theorem ex5tc_create :
    TileCircuit_create ex5graph [(1, ex5tile)] 8 32 16 32 4 = .ok ex5tc := by
  rfl

/-- Counterexample to claim C4 as stated: the feature-address bit range of a
tile built with the default parameters (full width 32, tile id width 16,
per-feature config address width 8) is 8 bits wide, while the tile ex4tc has
3 features and ceil(log2(3)) = 2; the feature field width is fixed by the
constructor parameters, not by the feature count. -/
theorem claim_C4_counterexample :
    ex4tc.full_config_addr_width = 32 ∧
    ex4tc.tile_id_width = 16 ∧
    ex4tc.config_addr_width = 8 ∧
    ex4tc.features.length = 3 ∧
    (feature_addr_slice 32 16 8).2 - (feature_addr_slice 32 16 8).1 = 8 ∧
    Nat.clog 2 ex4tc.features.length = 2 ∧
    (8 : Nat) ≠ 2 := by
  refine ⟨by decide, by decide, by decide, by decide, by decide, ?_, by decide⟩
  have h : ex4tc.features.length = 3 := by decide
  rw [h, ← clog2_eq_clog]
  decide

/-! ## Claim C1: the resolved bitstream triple -/

/-- Claim C1 (amended): under the resolver preconditions and for a
destination with at least two incoming edges, get_route_bitstream_config
returns exactly (registerIndex, featureAddress, configData) with
registerIndex the position of the destination's selector-register name in the
owning feature's sorted register-name list, featureAddress the position of
the owning feature in the tile feature list, and configData the index of the
source inside the destination's ordered incoming list. -/
theorem claim_C1_route (g : Graph) (tc : TileCircuitModel) (src dst : GNode)
    (tile : TileDesc) (caw cdw : Nat) (cn : String) (ssw : Nat)
    (circuit : Feature)
    (hw : src.width = dst.width)
    (ht : List.lookup src.width tc.tiles = some tile)
    (hx : dst.x = tile.x) (hy : dst.y = tile.y)
    (hconn : dst ∈ g.connOut src)
    (hk : 2 ≤ (g.connIn dst).length)
    (hc : route_circuit tc src dst = .ok circuit)
    (hcb : ∀ c, circuit = Feature.cb c → CB_create g dst caw cdw = .ok c)
    (hsb : ∀ s, circuit = Feature.sb s →
      SB_create g s.switchbox caw cdw cn ssw = .ok s ∧
      (dst ∈ s.switchbox.sbNodes ∨ ∃ key, (key, dst) ∈ s.switchbox.reg_muxs))
    (hmem : circuit ∈ tc.features) :
    get_route_bitstream_config g tc src dst =
      .ok (((circuit.fregisters.map Prod.fst).insertionSort strLe).indexOf
             (get_mux_sel_name dst),
           tc.features.indexOf circuit,
           (g.connIn dst).indexOf src) := by
  have hsel : get_mux_sel_name dst ∈ circuit.fregisters.map Prod.fst := by
    cases circuit with
    | core i ps =>
      exfalso
      unfold route_circuit at hc
      cases hdk : dst.kind with
      | switchBoxNode dir =>
        rw [hdk] at hc
        rcases hlk : List.lookup src.width tc.sbs with _ | v <;> simp [hlk] at hc
      | portNode =>
        rw [hdk] at hc
        rcases hlk : List.lookup dst.name tc.cbs with _ | v <;> simp [hlk] at hc
      | registerNode =>
        rw [hdk] at hc
        simp at hc
      | registerMuxNode =>
        rw [hdk] at hc
        rcases hlk : List.lookup src.width tc.sbs with _ | v <;> simp [hlk] at hc
    | cb c =>
      have hcb2 := hcb c rfl
      have hdk : dst.kind = NodeKind.portNode := by
        by_contra hne
        unfold CB_create at hcb2
        rw [if_pos hne] at hcb2
        cases hcb2
      rw [CB_create_ok_mux g dst caw cdw hdk (by omega)] at hcb2
      cases hcb2
      simp [Feature.fregisters]
    | sb s =>
      obtain ⟨hsb2, hdst⟩ := hsb s rfl
      obtain ⟨hswx, hnil, hsm, hrm, hregs, hcr, hregeq⟩ := SB_create_ok hsb2
      show get_mux_sel_name dst ∈ s.registers.map Prod.fst
      rw [hregeq]
      rcases hdst with hmem1 | ⟨key, hmem2⟩
      · rw [hnil] at hmem1
        exact absurd hmem1 (List.not_mem_nil dst)
      · obtain ⟨_, ihm⟩ := SB_build_reg_muxs_ok hrm
        obtain ⟨key2, hkey2⟩ := ihm (key, dst) hmem2 rfl
        unfold rm_sel_entries
        rw [List.map_map]
        exact List.mem_map.mpr ⟨_, hkey2, rfl⟩
  have hsorted : get_mux_sel_name dst ∈
      (circuit.fregisters.map Prod.fst).insertionSort strLe :=
    (List.perm_insertionSort strLe _).mem_iff.mpr hsel
  have hfind : find_reg_index circuit dst =
      .ok (((circuit.fregisters.map Prod.fst).insertionSort strLe).indexOf
        (get_mux_sel_name dst)) := by
    unfold find_reg_index
    simp only [indexOf?_of_mem hsorted]
  unfold get_route_bitstream_config
  rw [if_pos hw]
  simp only [ht]
  rw [if_pos ⟨hx, hy⟩, if_pos hconn]
  simp only [hc, hfind, indexOf?_of_mem hmem]

/-- Witness for the amended C1: routing the cross-tile edge e4ext1 -> data_in
of the example tile ex4tc resolves to the register index, feature address and
config data the theorem prescribes. -/
theorem claim_C1_route_witness :
    get_route_bitstream_config ex4graph ex4tc ex4ext1 ex4pIn =
      .ok ((((Feature.cb ex4cb).fregisters.map Prod.fst).insertionSort
              strLe).indexOf (get_mux_sel_name ex4pIn),
           ex4tc.features.indexOf (Feature.cb ex4cb),
           (ex4graph.connIn ex4pIn).indexOf ex4ext1) :=
  claim_C1_route ex4graph ex4tc ex4ext1 ex4pIn ex4tile 8 32 "PE" 4
    (Feature.cb ex4cb) rfl (by decide) rfl rfl (by decide) (by decide)
    (by rfl)
    (fun c hcc => by cases hcc; rfl)
    (fun s hss => Feature.noConfusion hss)
    (by decide)

/-- Counterexample to claim C1 as stated: in the tile ex5tc the pair
(e5ext, bit_in) satisfies every resolver precondition (equal widths,
destination at the tile coordinate, destination connected to the source), yet
get_route_bitstream_config faults instead of returning a triple, because the
destination has exactly one incoming edge and therefore no selector
register. -/
theorem claim_C1_counterexample :
    ex5ext.width = ex5pIn.width ∧
    List.lookup ex5ext.width ex5tc.tiles = some ex5tile ∧
    ex5pIn.x = ex5tile.x ∧ ex5pIn.y = ex5tile.y ∧
    ex5pIn ∈ ex5graph.connOut ex5ext ∧
    get_route_bitstream_config ex5graph ex5tc ex5ext ex5pIn =
      .error "ValueError: mux_sel_name is not in config_names" :=
  ⟨rfl, by decide, rfl, rfl, by decide, by rfl⟩

/-! ## Claim C10: fan-in-1 destinations fault in the register-index lookup -/

theorem not_mem_indexOf?_none {α : Type} [DecidableEq α] {a : α} {l : List α}
    (h : a ∉ l) : l.indexOf? a = none := by
  apply List.indexOf?_eq_none_iff.mpr
  intro x hx
  intro hbeq
  exact h (by rwa [eq_of_beq hbeq] at hx)

/-- Claim C10: for a connected pair whose destination has exactly one
incoming edge, the resolver faults during the register-index lookup: the
fan-in-1 destination was lowered to a passthrough wire and its selector
register name was never registered in the owning feature. -/
theorem claim_C10_fanin1 (g : Graph) (tc : TileCircuitModel) (src dst : GNode)
    (tile : TileDesc) (caw cdw : Nat) (cn : String) (ssw : Nat)
    (circuit : Feature)
    (hw : src.width = dst.width)
    (ht : List.lookup src.width tc.tiles = some tile)
    (hx : dst.x = tile.x) (hy : dst.y = tile.y)
    (hconn : dst ∈ g.connOut src)
    (hk1 : (g.connIn dst).length = 1)
    (hc : route_circuit tc src dst = .ok circuit)
    (hcb : ∀ c, circuit = Feature.cb c → CB_create g dst caw cdw = .ok c)
    (hsb : ∀ s, circuit = Feature.sb s →
      SB_create g s.switchbox caw cdw cn ssw = .ok s ∧
      (∀ n ∈ s.switchbox.sbNodes,
        get_mux_sel_name n = get_mux_sel_name dst → n = dst) ∧
      (∀ key rm, (key, rm) ∈ s.switchbox.reg_muxs →
        get_mux_sel_name rm = get_mux_sel_name dst → rm = dst)) :
    get_route_bitstream_config g tc src dst =
      .error "ValueError: mux_sel_name is not in config_names" := by
  have hsel : get_mux_sel_name dst ∉ circuit.fregisters.map Prod.fst := by
    cases circuit with
    | core i ps =>
      simp [Feature.fregisters]
    | cb c =>
      have hcb2 := hcb c rfl
      have hdk : dst.kind = NodeKind.portNode := by
        by_contra hne
        unfold CB_create at hcb2
        rw [if_pos hne] at hcb2
        cases hcb2
      rw [CB_create_ok_wire g dst caw cdw hdk (by omega)] at hcb2
      cases hcb2
      simp [Feature.fregisters]
    | sb s =>
      obtain ⟨hsb2, hinj1, hinj2⟩ := hsb s rfl
      obtain ⟨hswx, hnil, hsm, hrm, hregs, hcr, hregeq⟩ := SB_create_ok hsb2
      show get_mux_sel_name dst ∉ s.registers.map Prod.fst
      rw [hregeq]
      intro hmem2
      unfold rm_sel_entries at hmem2
      rw [List.map_map] at hmem2
      obtain ⟨q, hq, hqname⟩ := List.mem_map.mp hmem2
      obtain ⟨ihs, _⟩ := SB_build_reg_muxs_ok hrm
      obtain ⟨p, hp, hq1, hq2, sbn, hchk, hq3⟩ := ihs q hq
      have hrmdst : p.2 = dst := by
        apply hinj2 p.1 p.2 (by
          rcases p with ⟨pk, pv⟩
          exact hp)
        rw [← hq1]
        exact hqname
      have hconn2 := SB_check_reg_mux_conn_two hchk
      rw [hrmdst, hk1] at hconn2
      cases hconn2
  have hsorted : get_mux_sel_name dst ∉
      (circuit.fregisters.map Prod.fst).insertionSort strLe := by
    intro hmem
    exact hsel ((List.perm_insertionSort strLe _).mem_iff.mp hmem)
  have hfind : find_reg_index circuit dst =
      .error "ValueError: mux_sel_name is not in config_names" := by
    unfold find_reg_index
    simp only [not_mem_indexOf?_none hsorted]
  unfold get_route_bitstream_config
  rw [if_pos hw]
  simp only [ht]
  rw [if_pos ⟨hx, hy⟩, if_pos hconn]
  simp only [hc, hfind]

/-- Witness for C10 at the concrete fan-in-1 connection box of ex5tc. -/
theorem claim_C10_fanin1_witness :
    get_route_bitstream_config ex5graph ex5tc ex5ext ex5pIn =
      .error "ValueError: mux_sel_name is not in config_names" :=
  claim_C10_fanin1 ex5graph ex5tc ex5ext ex5pIn ex5tile 8 32 "IOCore" 4
    (Feature.cb (match CB_create ex5graph ex5pIn 8 32 with
      | .ok cb => cb
      | .error _ => default)) rfl (by decide) rfl rfl (by decide) (by decide)
    (by rfl)
    (fun c hcc => by cases hcc; rfl)
    (fun s hss => Feature.noConfusion hss)


/-! ## Claim C8: register-mux topology validation against the tuple fault -/

/-- Claim C8 (code bug): the register-mux topology validation of
SB.__create_reg_mux does run, and ex1's register mux (fed by exactly one
RegisterNode and one OUT switch node) passes it and yields a height-2
selector whose select register would be 1 bit wide; but compiling the
enclosing switch box faults before any select register is allocated, because
SB.__create_sb_mux (line 234) stores create_mux's (mux, name) pair
un-unpacked — contradicting the declared type Dict[str, Tuple[SwitchBoxNode,
Mux]] of line 152 — and the port-lifting loop of lines 166-175 then reads
ports off the tuple.  The positive half of the claim never holds of a
completed compilation. -/
theorem claim_C8_tuple_fault :
    valid_reg_mux_shape ex1graph ex1rm ∧
    SB_check_reg_mux ex1graph ex1rm = .ok ex1sbOut ∧
    (create_mux ex1graph ex1rm).1.height = 2 ∧
    (create_mux ex1graph ex1rm).1.sel_size = 1 ∧
    SB_create ex1graph ex1sbx 8 32 "PE" 4 =
      .error "AttributeError: tuple object has no attribute ports" :=
  ⟨⟨ex1reg, ex1sbOut, rfl, rfl, Or.inl (by decide)⟩,
   by rfl, by rfl, by rfl, by rfl⟩

/-! ## Claim C9: finalize-once and configuration-free finalization -/

theorem should_add_config_none {l : List Feature}
    (h : ∀ f ∈ l, "config" ∉ f.fports ∧ "reset" ∉ f.fports) :
    should_add_config l = .ok false := by
  induction l with
  | nil => rfl
  | cons f rest ih =>
    unfold should_add_config
    rw [if_neg (h f (List.mem_cons_self f rest)).1,
        if_neg (h f (List.mem_cons_self f rest)).2]
    exact ih fun f2 h2 => h f2 (List.mem_cons_of_mem f h2)

theorem finalize_sets_flag {tc tc2 : TileCircuitModel}
    (h : TileCircuit_finalize tc = .ok tc2) : tc2.finalized = true := by
  unfold TileCircuit_finalize at h
  split at h
  · cases h
  · split at h
    · cases h
    · cases h; rfl
    · cases h; rfl

/-- Claim C9: finalizing twice is a fault, and a tile none of whose features
exposes a configuration surface finalizes without adding any config, clk or
read_config_data port while still fanning out stall and reset. -/
theorem claim_C9_finalize (tc tc2 : TileCircuitModel) :
    (TileCircuit_finalize tc = .ok tc2 →
      TileCircuit_finalize tc2 = .error "Exception: Circuit already finalized") ∧
    (tc.finalized = false →
      (∀ f ∈ tc.features, "config" ∉ f.fports ∧ "reset" ∉ f.fports) →
      ∃ tc3, TileCircuit_finalize tc = .ok tc3 ∧
        tc3.ports = tc.ports ∧
        tc3.wires = tc.wires ++ tile_stall_wires tc ++ tile_reset_wires tc) := by
  constructor
  · intro h
    unfold TileCircuit_finalize
    rw [if_pos (finalize_sets_flag h)]
  · intro hflag hfeat
    refine ⟨{ tc with
              finalized := true
              wires := tc.wires ++ tile_stall_wires tc ++
                tile_reset_wires tc }, ?_, rfl, rfl⟩
    unfold TileCircuit_finalize
    rw [if_neg (by rw [hflag]; exact Bool.false_ne_true)]
    simp only [should_add_config_none hfeat]

/-- Witness for C9: the empty tile ex3tc finalizes once with unchanged ports,
and finalizing the result faults. -/
theorem claim_C9_finalize_witness :
    TileCircuit_finalize ex3tcf =
      .error "Exception: Circuit already finalized" ∧
    ∃ tc3, TileCircuit_finalize ex3tc = .ok tc3 ∧
      tc3.ports = ex3tc.ports ∧
      tc3.wires = ex3tc.wires ++ tile_stall_wires ex3tc ++
        tile_reset_wires ex3tc :=
  ⟨(claim_C9_finalize ex3tc ex3tcf).1 (by rfl),
   (claim_C9_finalize ex3tc ex3tcf).2 (by decide) (by decide)⟩

/-! ## Claim C3: the tile feature order -/

theorem mem_of_indexOf?_some {α : Type} [DecidableEq α] {a : α} {l : List α}
    {i : Nat} (h : l.indexOf? a = some i) : a ∈ l := by
  by_contra hmem
  rw [not_mem_indexOf?_none hmem] at h
  cases h

theorem map_fst_orderedInsert {α β : Type} (r : α → α → Prop) [DecidableRel r]
    (rp : (α × β) → (α × β) → Prop) [DecidableRel rp]
    (hrp : ∀ p q, rp p q ↔ r p.1 q.1) (p : α × β) :
    ∀ l : List (α × β),
    (l.orderedInsert rp p).map Prod.fst =
      (l.map Prod.fst).orderedInsert r p.1
  | [] => rfl
  | q :: rest => by
    by_cases h : rp p q
    · simp only [List.orderedInsert, List.map_cons]
      rw [if_pos h, if_pos ((hrp p q).mp h)]
      rfl
    · simp only [List.orderedInsert, List.map_cons]
      rw [if_neg h, if_neg (fun hc => h ((hrp p q).mpr hc))]
      rw [List.map_cons, map_fst_orderedInsert r rp hrp p rest]

theorem map_fst_insertionSort {α β : Type} (r : α → α → Prop) [DecidableRel r]
    (rp : (α × β) → (α × β) → Prop) [DecidableRel rp]
    (hrp : ∀ p q, rp p q ↔ r p.1 q.1) :
    ∀ l : List (α × β),
    (l.insertionSort rp).map Prod.fst = (l.map Prod.fst).insertionSort r
  | [] => rfl
  | p :: rest => by
    simp only [List.insertionSort, List.map_cons]
    rw [map_fst_orderedInsert r rp hrp p _, map_fst_insertionSort r rp hrp rest]

theorem filterMap_lookup_pairs {α β γ : Type} [DecidableEq α]
    {l : List (α × β)} (f : β → γ) :
    ∀ {sp : List (α × β)},
    (∀ p ∈ sp, List.lookup p.1 l = some p.2) →
    (sp.map Prod.fst).filterMap (fun k => (List.lookup k l).map f) =
      sp.map fun p => f p.2 := by
  intro sp
  induction sp with
  | nil => intro _; rfl
  | cons p rest ih =>
    intro hl
    have hp := hl p (List.mem_cons_self p rest)
    simp only [List.map_cons, List.filterMap_cons, hp, Option.map_some']
    rw [ih fun q hq => hl q (List.mem_cons_of_mem p hq)]

def cbKeyLe (p q : String × CBCircuit) : Prop := strLe p.1 q.1

instance : DecidableRel cbKeyLe :=
  fun p q => (inferInstance : Decidable (strLe p.1 q.1))

def sbKeyLe (p q : Nat × SBCircuit) : Prop := p.1 ≤ q.1

instance : DecidableRel sbKeyLe := fun p q => Nat.decLe p.1 q.1

/-- The code sorts dictionary keys and looks each one back up; with distinct
keys that equals sorting the compiled boxes themselves by key. -/
theorem buildFeatures_spec (core : Option CoreDesc)
    (cbs : List (String × CBCircuit)) (sbs : List (Nat × SBCircuit))
    (hnd : (cbs.map Prod.fst).Nodup) (hnds : (sbs.map Prod.fst).Nodup) :
    buildFeatures core cbs sbs =
      (match core with
       | some c => c.featurePorts.enum.map fun p => Feature.core p.1 p.2
       | none => []) ++
      (cbs.insertionSort cbKeyLe).map (fun p => Feature.cb p.2) ++
      (sbs.insertionSort sbKeyLe).map (fun p => Feature.sb p.2) := by
  unfold buildFeatures
  rw [List.append_assoc, List.append_assoc]
  congr 1
  congr 1
  · rw [← map_fst_insertionSort strLe cbKeyLe (fun p q => Iff.rfl) cbs]
    apply filterMap_lookup_pairs
    intro p hp
    exact lookup_of_mem_nodup hnd
      ((List.perm_insertionSort cbKeyLe cbs).mem_iff.mp hp)
  · rw [← map_fst_insertionSort (· ≤ ·) sbKeyLe (fun p q => Iff.rfl) sbs]
    apply filterMap_lookup_pairs
    intro p hp
    exact lookup_of_mem_nodup hnds
      ((List.perm_insertionSort sbKeyLe sbs).mem_iff.mp hp)

theorem TileCircuit_create_features {g : Graph} {tiles : List (Nat × TileDesc)}
    {caw cdw tid full ssw : Nat} {tc : TileCircuitModel}
    (h : TileCircuit_create g tiles caw cdw tid full ssw = .ok tc) :
    tc.features = buildFeatures tc.core tc.cbs tc.sbs := by
  simp only [TileCircuit_create] at h
  split at h
  · cases h
  · split at h
    · cases h
    · split at h
      · cases h
      · split at h
        · cases h
        · split at h
          · cases h
          · split at h
            · cases h
            · cases h
              rfl

theorem get_route_ok_inv {g : Graph} {tc : TileCircuitModel} {src dst : GNode}
    {ri fa cd : Nat}
    (h : get_route_bitstream_config g tc src dst = .ok (ri, fa, cd)) :
    ∃ circuit, route_circuit tc src dst = .ok circuit ∧
      circuit ∈ tc.features ∧ tc.features.indexOf? circuit = some fa := by
  unfold get_route_bitstream_config at h
  split at h
  · split at h
    · cases h
    · split at h
      · split at h
        · split at h
          · cases h
          · next circuit hc =>
            split at h
            · cases h
            · split at h
              · next hidx =>
                cases h
                exact ⟨circuit, hc, mem_of_indexOf?_some hidx, hidx⟩
              · cases h
        · cases h
      · cases h
  · cases h

/-- Claim C3: the feature list is the core features first, then the
connection boxes sorted by port name, then the switch boxes sorted by bit
width, and the feature address the resolver reports is the index of the
owning feature in that list. -/
theorem claim_C3_feature_order (g : Graph) (tiles : List (Nat × TileDesc))
    (caw cdw tid full ssw : Nat) (tc : TileCircuitModel)
    (h : TileCircuit_create g tiles caw cdw tid full ssw = .ok tc)
    (hnd : (tc.cbs.map Prod.fst).Nodup)
    (hnds : (tc.sbs.map Prod.fst).Nodup) :
    tc.features =
      (match tc.core with
       | some c => c.featurePorts.enum.map fun p => Feature.core p.1 p.2
       | none => []) ++
      (tc.cbs.insertionSort cbKeyLe).map (fun p => Feature.cb p.2) ++
      (tc.sbs.insertionSort sbKeyLe).map (fun p => Feature.sb p.2) ∧
    (∀ src dst ri fa cd,
      get_route_bitstream_config g tc src dst = .ok (ri, fa, cd) →
      ∃ circuit, route_circuit tc src dst = .ok circuit ∧
        circuit ∈ tc.features ∧ tc.features.indexOf? circuit = some fa) :=
  ⟨(TileCircuit_create_features h).trans
     (buildFeatures_spec tc.core tc.cbs tc.sbs hnd hnds),
   fun _ _ _ _ _ hroute => get_route_ok_inv hroute⟩

/-- Witness for C3 on the concrete tile ex4tc (one core feature, one
connection box, one switch box). -/
theorem claim_C3_feature_order_witness :
    ex4tc.features =
      (match ex4tc.core with
       | some c => c.featurePorts.enum.map fun p => Feature.core p.1 p.2
       | none => []) ++
      (ex4tc.cbs.insertionSort cbKeyLe).map (fun p => Feature.cb p.2) ++
      (ex4tc.sbs.insertionSort sbKeyLe).map (fun p => Feature.sb p.2) ∧
    (∀ src dst ri fa cd,
      get_route_bitstream_config ex4graph ex4tc src dst = .ok (ri, fa, cd) →
      ∃ circuit, route_circuit ex4tc src dst = .ok circuit ∧
        circuit ∈ ex4tc.features ∧
        ex4tc.features.indexOf? circuit = some fa) :=
  claim_C3_feature_order ex4graph [(1, ex4tile)] 8 32 16 32 4 ex4tc
    (by rfl) (by decide) (by decide)

end Canal
